import Mathlib

/-!
Shallow embedding of the core of the `gameboy-emu` emulator (Rust), together
with theorems settling the frozen claims about its specification.

Conventions of the embedding:
* Bytes and addresses are `Nat`; machine arithmetic that wraps in the source
  (`u8`, `u16`, `Wrapping`) is made explicit with `% 256` / `% 65536` or with
  bitwise masks, exactly where the source wraps.
* Rust byte vectors (`Vec<u8>`) are modelled as functions `Nat → Nat`;
  `vec[i] = v` becomes a pointwise update.  An index that is out of bounds in
  the source (a Rust panic) is modelled by returning `none`; fallible
  operations therefore live in `Option`.
* The diagnostic-only fields `writes`/`reads` of `MMU` (pure statistics,
  read by nothing) are not carried in the state.
* The source files reference three items whose defining code is not in the
  repository snapshot (`ioregs::BOOT`, `HRAM_ADDR`/`HRAM_SIZE`, and
  `Timer::reset_internal_div` / `Timer::reset_internal_tima`); those are
  modelled from the specification and marked as such at their definitions.
-/

set_option maxRecDepth 100000

/-- Pointwise update of a store: models `vec[i] = v`. -/
def upd {α : Type} (f : Nat → α) (i : Nat) (v : α) : Nat → α :=
  fun j => if j = i then v else f j

/-- Iterate a fallible step `n` times (used to run device steps in sequence). -/
def iterOpt {α : Type} (f : α → Option α) : Nat → α → Option α
  | 0, a => some a
  | n + 1, a => (f a).bind (iterOpt f n)

/- Memory-map constants from `src/mem/mod.rs`. -/
def ROM_BASE_ADDR : Nat := 0x0000
def ROM_SWITCHABLE_ADDR : Nat := 0x4000
def VRAM_ADDR : Nat := 0x8000
def RAM_SWITCHABLE_ADDR : Nat := 0xA000
def RAM_BASE_ADDR : Nat := 0xC000
def RAM_ECHO_ADDR : Nat := 0xE000
def OAM_ADDR : Nat := 0xFE00
def IO_REGS_ADDR : Nat := 0xFF00
def BOOSTRAP_SIZE : Nat := 0x100
def RAM_BANK_SIZE : Nat := 0x2000
def ROM_BANK_SIZE : Nat := 0x4000
def VRAM_SIZE : Nat := 0x2000
def OAM_SIZE : Nat := 0xA0
def IO_REG_SIZE : Nat := 0x80

/-- Modelled from the spec: the high-RAM base `HRAM_ADDR` is referenced by
`src/mem/mmu.rs` but its definition is missing from the snapshot; the spec
places high RAM (zero page) at 0xFF80–0xFFFE. -/
def HRAM_ADDR : Nat := 0xFF80

/-- Modelled from the spec: `HRAM_SIZE` is referenced by `src/mem/mmu.rs` but
its definition is missing from the snapshot; the spec gives high RAM 127 bytes. -/
def HRAM_SIZE : Nat := 0x7F

/- I/O register addresses from `src/mem/ioregs.rs`. -/
def ioregs.P1 : Nat := 0xFF00
def ioregs.DIV : Nat := 0xFF04
def ioregs.TIMA : Nat := 0xFF05
def ioregs.TMA : Nat := 0xFF06
def ioregs.TAC : Nat := 0xFF07
def ioregs.IF : Nat := 0xFF0F
def ioregs.NR_41 : Nat := 0xFF20
def ioregs.NR_42 : Nat := 0xFF21
def ioregs.NR_43 : Nat := 0xFF22
def ioregs.NR_44 : Nat := 0xFF23
def ioregs.NR_52 : Nat := 0xFF26
def ioregs.LCDC : Nat := 0xFF40
def ioregs.STAT : Nat := 0xFF41
def ioregs.SCY : Nat := 0xFF42
def ioregs.SCX : Nat := 0xFF43
def ioregs.LY : Nat := 0xFF44
def ioregs.LYC : Nat := 0xFF45
def ioregs.DMA : Nat := 0xFF46
def ioregs.BGP : Nat := 0xFF47
def ioregs.OBP_0 : Nat := 0xFF48
def ioregs.OBP_1 : Nat := 0xFF49
def ioregs.WY : Nat := 0xFF4A
def ioregs.WX : Nat := 0xFF4B
def ioregs.BOOT_END : Nat := 0xFF50
def ioregs.IE : Nat := 0xFFFF

/-- Modelled from the spec: `src/mem/mmu.rs` gates the bootstrap overlay on
`ioregs::BOOT`, a constant missing from the snapshot; the spec's bootstrap-end
flag lives at 0xFF50. -/
def ioregs.BOOT : Nat := 0xFF50

/-- Default non-zero I/O register values set by `IORegs::new`
(`src/mem/ioregs.rs`), as a function of the offset from 0xFF00. -/
def IORegs.new : Nat → Nat := fun off =>
  if off = 0x10 then 0x80        -- NR_10
  else if off = 0x11 then 0xBF   -- NR_11
  else if off = 0x12 then 0xF3   -- NR_12
  else if off = 0x14 then 0xBF   -- NR_14
  else if off = 0x16 then 0x3F   -- NR_21
  else if off = 0x19 then 0xBF   -- NR_24
  else if off = 0x1A then 0x7F   -- NR_30
  else if off = 0x1B then 0xFF   -- NR_31
  else if off = 0x1C then 0x9F   -- NR_32
  else if off = 0x1D then 0xBF   -- NR_33
  else if off = 0x20 then 0xFF   -- NR_41
  else if off = 0x23 then 0xBF   -- NR_44
  else if off = 0x24 then 0x77   -- NR_50
  else if off = 0x25 then 0xF3   -- NR_51
  else if off = 0x26 then 0xF1   -- NR_52
  else if off = 0x40 then 0x91   -- LCDC
  else if off = 0x47 then 0xFC   -- BGP
  else if off = 0x48 then 0xFF   -- OBP_0
  else if off = 0x49 then 0xFF   -- OBP_1
  else 0

/- ===== Mapper: MBC1 (`src/mem/mbc/mbc1.rs`) ===== -/

inductive AddrType
  | Status
  | Write
deriving DecidableEq

def mbc1.RAM_MODE : Nat := 1
def mbc1.ROM_MODE : Nat := 0

structure MBC1 where
  ram : Nat → Nat
  rom : Nat → Nat
  ram_enabled : Bool
  banking_mode : Nat
  idx : Nat

/-- `MBC1::new`: zero-filled RAM, ROM contents given by the loaded image
(zero beyond it), RAM disabled, ROM banking mode, bank index 1.
(The `rom.len()` size check of the source is a load-time panic out of scope.) -/
def MBC1.new (rom : Nat → Nat) : MBC1 :=
  { ram := fun _ => 0
    rom := rom
    ram_enabled := false
    banking_mode := mbc1.ROM_MODE
    idx := 1 }

/-- `MBC1::get_addr_type`: the four control intervals cover 0x0000–0x7FFF. -/
def MBC1.get_addr_type (_ : MBC1) (addr : Nat) : AddrType :=
  if (0x0000 ≤ addr ∧ addr ≤ 0x1FFF) ∨ (0x6000 ≤ addr ∧ addr ≤ 0x7FFF) ∨
     (0x2000 ≤ addr ∧ addr ≤ 0x3FFF) ∨ (0x4000 ≤ addr ∧ addr ≤ 0x5FFF) then
    AddrType.Status
  else
    AddrType.Write

/-- `MBC1::on_status`: mapper control writes (RAM enable, ROM bank low bits,
RAM/ROM bank high bits, banking mode), mirroring the source's sequence of
range tests. -/
def MBC1.on_status (m : MBC1) (addr : Nat) (value : Nat) : MBC1 :=
  let m :=
    if addr < 0x2000 then
      if value = 0x00 then { m with ram_enabled := false }
      else if value = 0x0A then { m with ram_enabled := true }
      else m
    else m
  let m :=
    if 0x2000 ≤ addr ∧ addr < 0x4000 then
      let idx := (value &&& 0b00011111) ||| (m.idx &&& 0b11100000)
      -- If 5 lower bits are zeros => change to 1
      let idx := if idx &&& 0x1F = 0 then idx + 1 else idx
      { m with idx := idx }
    else m
  let m :=
    if 0x4000 ≤ addr ∧ addr < 0x6000 then
      { m with idx := ((value &&& 0x3) <<< 5) ||| (m.idx &&& 0b10011111) }
    else m
  if 0x6000 ≤ addr ∧ addr < 0x8000 then { m with banking_mode := value &&& 1 } else m

/-- Start offset into `rom` of the slice returned by `MBC1::get_switchable_rom`
(which is always `Some`). -/
def MBC1.switchable_rom_start (m : MBC1) : Nat :=
  let mask := if m.banking_mode = mbc1.ROM_MODE then 0x7F else 0x1F
  (m.idx &&& mask) * ROM_BANK_SIZE

/-- Start offset into `ram` of the slice returned by `MBC1::get_switchable_ram`,
or `none` when RAM is disabled. -/
def MBC1.switchable_ram_start (m : MBC1) : Option Nat :=
  if ¬m.ram_enabled then none
  else
    let mask := (if m.banking_mode = mbc1.RAM_MODE then 0b01100000 else 0) >>> 5
    some ((m.idx &&& mask) * RAM_BANK_SIZE)

/- ===== MMU (`src/mem/mmu.rs`) ===== -/

structure MMU where
  bootstrap : Nat → Nat
  mapper : MBC1
  vram : Nat → Nat
  oam : Nat → Nat
  ram : Nat → Nat
  hram : Nat → Nat
  ioregs : Nat → Nat

/-- `MMU::new`: zero-filled segments, default I/O registers, bootstrap blob.
The blob's bytes come from an external binary (`data/bootstrap.bin`) and are
kept as a parameter. -/
def MMU.new (bootstrap : Nat → Nat) (mapper : MBC1) : MMU :=
  { bootstrap := bootstrap
    mapper := mapper
    vram := fun _ => 0
    oam := fun _ => 0
    ram := fun _ => 0
    hram := fun _ => 0
    ioregs := IORegs.new }

/-- `MMU::read`.  The source's chunked nibble match routes contiguous address
ranges; the guards below reproduce those ranges.  Out-of-bounds vector
indexing (a Rust panic) yields `none`; only the OAM arm, whose range
0xFE00–0xFEFF exceeds the 0xA0-byte `oam` vector, can actually go out of
bounds for a 16-bit address. -/
def MMU.read (m : MMU) (addr : Nat) : Option Nat :=
  if addr < BOOSTRAP_SIZE ∧ m.ioregs (ioregs.BOOT - IO_REGS_ADDR) = 0x00 then
    some (m.bootstrap addr)
  else if addr ≤ 0x3FFF then
    -- read_base_rom: MBC1::get_base_rom is always Some
    some (m.mapper.rom addr)
  else if addr ≤ 0x7FFF then
    some (m.mapper.rom (m.mapper.switchable_rom_start + (addr - ROM_SWITCHABLE_ADDR)))
  else if addr ≤ 0x9FFF then
    if addr - VRAM_ADDR < VRAM_SIZE then some (m.vram (addr - VRAM_ADDR)) else none
  else if addr ≤ 0xBFFF then
    -- read_switchable_ram: 0xFF when the mapper reports no storage
    match m.mapper.switchable_ram_start with
    | some start =>
        if addr - RAM_SWITCHABLE_ADDR < RAM_BANK_SIZE then
          some (m.mapper.ram (start + (addr - RAM_SWITCHABLE_ADDR)))
        else none
    | none => some 0xFF
  else if addr ≤ 0xDFFF then
    if addr - RAM_BASE_ADDR < RAM_BANK_SIZE then some (m.ram (addr - RAM_BASE_ADDR)) else none
  else if addr ≤ 0xFDFF then
    if addr - RAM_ECHO_ADDR < RAM_BANK_SIZE then some (m.ram (addr - RAM_ECHO_ADDR)) else none
  else if addr ≤ 0xFEFF then
    if addr - OAM_ADDR < OAM_SIZE then some (m.oam (addr - OAM_ADDR)) else none
  else if addr ≤ 0xFF7F ∨ addr = 0xFFFF then
    -- the IORegs vector holds 0x100 bytes, so offsets up to 0xFF are in bounds
    some (m.ioregs (addr - IO_REGS_ADDR))
  else
    if addr - HRAM_ADDR < HRAM_SIZE then some (m.hram (addr - HRAM_ADDR)) else none

/-- `MMU::write`.  A write below 0x100 while the bootstrap overlay is active
panics in the source (`none` here); ROM-region writes are routed to the
mapper (or logged and dropped); the OAM arm can index out of bounds exactly
as in `MMU::read`. -/
def MMU.write (m : MMU) (addr : Nat) (byte : Nat) : Option MMU :=
  if addr < BOOSTRAP_SIZE ∧ m.ioregs (ioregs.BOOT - IO_REGS_ADDR) = 0x00 then
    none
  else if addr ≤ 0x3FFF then
    match m.mapper.get_addr_type addr with
    | AddrType.Status => some { m with mapper := m.mapper.on_status addr byte }
    | AddrType.Write => some m   -- "Attempt to write to ROM" is logged, dropped
  else if addr ≤ 0x7FFF then
    match m.mapper.get_addr_type addr with
    | AddrType.Status => some { m with mapper := m.mapper.on_status addr byte }
    | AddrType.Write => some m
  else if addr ≤ 0x9FFF then
    if addr - VRAM_ADDR < VRAM_SIZE then
      some { m with vram := upd m.vram (addr - VRAM_ADDR) byte }
    else none
  else if addr ≤ 0xBFFF then
    match m.mapper.get_addr_type addr with
    | AddrType.Status => none    -- panics: "Unable to send status at RAM address"
    | AddrType.Write =>
      match m.mapper.switchable_ram_start with
      | none => some m           -- "storage not present" is logged, dropped
      | some start =>
          if addr - RAM_SWITCHABLE_ADDR < RAM_BANK_SIZE then
            some { m with mapper :=
              { m.mapper with ram := upd m.mapper.ram (start + (addr - RAM_SWITCHABLE_ADDR)) byte } }
          else none
  else if addr ≤ 0xDFFF then
    if addr - RAM_BASE_ADDR < RAM_BANK_SIZE then
      some { m with ram := upd m.ram (addr - RAM_BASE_ADDR) byte }
    else none
  else if addr ≤ 0xFDFF then
    if addr - RAM_ECHO_ADDR < RAM_BANK_SIZE then
      some { m with ram := upd m.ram (addr - RAM_ECHO_ADDR) byte }
    else none
  else if addr ≤ 0xFEFF then
    if addr - OAM_ADDR < OAM_SIZE then
      some { m with oam := upd m.oam (addr - OAM_ADDR) byte }
    else none
  else if addr ≤ 0xFF7F ∨ addr = 0xFFFF then
    some { m with ioregs := upd m.ioregs (addr - IO_REGS_ADDR) byte }
  else
    if addr - HRAM_ADDR < HRAM_SIZE then
      some { m with hram := upd m.hram (addr - HRAM_ADDR) byte }
    else none

/-- `MMU::read_bit`: test bit `n` of the byte at `addr`. -/
def MMU.read_bit (m : MMU) (addr : Nat) (n : Nat) : Option Bool :=
  (m.read addr).map (fun byte => (byte &&& (1 <<< n)) != 0)

/-- `MMU::set_bit`: read, mask in bit `n`, write back
(`!mask` on a `u8` is `mask ^^^ 0xFF`). -/
def MMU.set_bit (m : MMU) (addr : Nat) (n : Nat) (flg : Bool) : Option MMU := do
  let byte ← m.read addr
  let mask := 1 <<< n
  let num : Nat := if flg then 1 else 0
  let updated := (byte &&& (mask ^^^ 0xFF)) ||| ((num <<< n) &&& mask)
  m.write addr updated

/- ===== Timer (`src/dev/timer.rs`) ===== -/

inductive TimerMode
  | FQ_4096HZ
  | FQ_16384HZ
  | FQ_65536HZ
  | FQ_262144HZ
deriving DecidableEq

def STEPS_4096HZ : Nat := 256
def STEPS_16384HZ : Nat := 64
def STEPS_65536HZ : Nat := 16
def STEPS_262144HZ : Nat := 4

structure Timer where
  div_cycle : Nat
  tima_cycle : Nat

/-- `Timer::new`. -/
def Timer.new : Timer := { div_cycle := 0, tima_cycle := 0 }

/-- `Timer::ENABLED`: TAC bit 2. -/
def Timer.ENABLED (m : MMU) : Option Bool := m.read_bit ioregs.TAC 2

/-- `Timer::MODE`: TAC bits 1–0. -/
def Timer.MODE (m : MMU) : Option TimerMode := do
  let b1 ← m.read_bit ioregs.TAC 1
  let b0 ← m.read_bit ioregs.TAC 0
  some (match b1, b0 with
    | true, true => TimerMode.FQ_16384HZ
    | true, false => TimerMode.FQ_65536HZ
    | false, true => TimerMode.FQ_262144HZ
    | false, false => TimerMode.FQ_4096HZ)

/-- `Timer::timer_int`: request the timer interrupt (IF bit 2). -/
def Timer.timer_int (m : MMU) : Option MMU := m.set_bit ioregs.IF 2 true

/-- The body of the `check_ticks` closure in `Timer::step`, for a given
per-tick step count: advance TIMA (reloading from TMA and requesting the
interrupt on overflow) when `tima_cycle` has completed a period. -/
def Timer.check_ticks (t : Timer) (m : MMU) (steps : Nat) : Option (Timer × MMU) := do
  if t.tima_cycle % steps ≠ 0 then
    some (t, m)
  else
    let count ← m.read ioregs.TIMA
    if count = 0xFF then
      let m ← Timer.timer_int m
      let tma ← m.read ioregs.TMA
      let m ← m.write ioregs.TIMA tma
      some ({ t with tima_cycle := 0 }, m)
    else
      let m ← m.write ioregs.TIMA (count + 1)
      some ({ t with tima_cycle := 0 }, m)

/-- `Timer::step` (`Clocked` impl): DIV advances every 64 machine cycles
(with 8-bit wrap), then TIMA advances at the TAC-selected rate when enabled. -/
def Timer.step (t : Timer) (m : MMU) : Option (Timer × MMU) := do
  let (t, m) ←
    if t.div_cycle % STEPS_16384HZ = 0 then do
      let div ← m.read ioregs.DIV
      let new := if div = 0xFF then 0 else div + 1
      let m ← m.write ioregs.DIV new
      some ({ t with div_cycle := 0 }, m)
    else
      some (t, m)
  let t := { t with div_cycle := t.div_cycle + 1 }
  let enabled ← Timer.ENABLED m
  if ¬enabled then
    some (t, m)
  else do
    let mode ← Timer.MODE m
    let (t, m) ←
      match mode with
      | TimerMode.FQ_16384HZ => Timer.check_ticks t m STEPS_16384HZ
      | TimerMode.FQ_65536HZ => Timer.check_ticks t m STEPS_65536HZ
      | TimerMode.FQ_262144HZ => Timer.check_ticks t m STEPS_262144HZ
      | TimerMode.FQ_4096HZ => Timer.check_ticks t m STEPS_4096HZ
    some ({ t with tima_cycle := t.tima_cycle + 1 }, m)

/-- Modelled from the spec: `Timer::reset_internal_div` is called by
`State::safe_write` but its definition is missing from the snapshot; the spec
says a DIV write "clears both DIV and the internal accumulator". -/
def Timer.reset_internal_div (t : Timer) : Timer := { t with div_cycle := 0 }

/-- Modelled from the spec: `Timer::reset_internal_tima` is called by
`State::safe_write` but its definition is missing from the snapshot; the spec
says writing TIMA "resets the internal TIMA accumulator". -/
def Timer.reset_internal_tima (t : Timer) : Timer := { t with tima_cycle := 0 }

/- ===== DMA (`src/dev/dma.rs`) ===== -/

/-- `TRANSFER_SIZE` as written in the source: 140 bytes. -/
def TRANSFER_SIZE : Nat := 140

structure DMA where
  active : Bool
  buff : Nat → Nat

/-- `DMA::new`. -/
def DMA.new : DMA := { active := false, buff := fun _ => 0 }

/-- `DMA::start`. -/
def DMA.start (d : DMA) : DMA := { d with active := true }

/-- `DMA::FROM`: source base address, `(DMA register) << 8`. -/
def DMA.FROM (m : MMU) : Option Nat := (m.read ioregs.DMA).map (· <<< 8)

/-- `DMA::next_time` (`Clocked` impl): 162 cycles while a transfer is active. -/
def DMA.next_time (d : DMA) : Nat := if d.active then 162 else 1

/-- First loop of `DMA::step`: `buff[i] = mmu.read(addr + i)` for `i < n`. -/
def DMA.read_loop (m : MMU) (addr : Nat) (buff : Nat → Nat) : Nat → Option (Nat → Nat)
  | 0 => some buff
  | n + 1 => do
      let buff ← DMA.read_loop m addr buff n
      let b ← m.read (addr + n)
      some (upd buff n b)

/-- Second loop of `DMA::step`: `oam[i] = buff[i]` for `i < n`. -/
def DMA.write_loop (oam : Nat → Nat) (buff : Nat → Nat) : Nat → Nat → Nat
  | 0 => oam
  | n + 1 => upd (DMA.write_loop oam buff n) n (buff n)

/-- `DMA::step` (`Clocked` impl): burst-copy `TRANSFER_SIZE` bytes from the
source window into OAM, then go idle. -/
def DMA.step (d : DMA) (m : MMU) : Option (DMA × MMU) := do
  if ¬d.active then
    some (d, m)
  else
    let addr ← DMA.FROM m
    let buff ← DMA.read_loop m addr d.buff TRANSFER_SIZE
    let oam := DMA.write_loop m.oam buff TRANSFER_SIZE
    some ({ d with buff := buff, active := false }, { m with oam := oam })

/- ===== APU noise channel (`src/dev/apu.rs`) ===== -/

def CPU_FREQUENCY : Nat := 1 <<< 20
def PLAYBACK_FREQUENCY : Nat := 44100
def SAMPLE_APPEND_RATE : Nat := CPU_FREQUENCY / PLAYBACK_FREQUENCY + 1
def NOISE_LSFR_SIZE : Nat := 16

structure NoiseChannel where
  volume : Nat
  length : Nat
  envelope_count : Nat
  timer : Nat
  sample_counter : Nat
  lsfr : Nat → Bool
  buff : List Int

/-- `NoiseChannel::SOUND_LENGTH`: NR41 bits 5–0. -/
def NoiseChannel.SOUND_LENGTH (m : MMU) : Option Nat :=
  (m.read ioregs.NR_41).map (· &&& 0x3F)

/-- `NoiseChannel::ENVELOPE_SHIFTS`: NR42 bits 2–0. -/
def NoiseChannel.ENVELOPE_SHIFTS (m : MMU) : Option Nat :=
  (m.read ioregs.NR_42).map (· &&& 7)

/-- `NoiseChannel::INITIAL_VOLUME`: NR42 bits 7–4. -/
def NoiseChannel.INITIAL_VOLUME (m : MMU) : Option Nat :=
  (m.read ioregs.NR_42).map (· >>> 4)

/-- `NoiseChannel::FREQ_RATIO`: NR43 bits 2–0, 0 mapping to 8, x to 8·x. -/
def NoiseChannel.FREQ_RATIO (m : MMU) : Option Nat :=
  (m.read ioregs.NR_43).map (fun b =>
    let x := b &&& 7
    if x = 0 then 8 else 8 * x)

/-- `NoiseChannel::LSFR_7BIT`: NR43 bit 3 (the short-mode flag). -/
def NoiseChannel.LSFR_7BIT (m : MMU) : Option Bool := m.read_bit ioregs.NR_43 3

/-- `NoiseChannel::FREQ_SHIFT_CLOCK`: NR43 bits 7–4. -/
def NoiseChannel.FREQ_SHIFT_CLOCK (m : MMU) : Option Nat :=
  (m.read ioregs.NR_43).map (· >>> 4)

/-- `NoiseChannel::INITIAL`: NR44 bit 7 (the trigger flag). -/
def NoiseChannel.INITIAL (m : MMU) : Option Bool := m.read_bit ioregs.NR_44 7

def NoiseChannel.setINITIAL (m : MMU) (v : Bool) : Option MMU :=
  m.set_bit ioregs.NR_44 7 v

/-- `NoiseChannel::ENABLED`: NR52 bit 3. -/
def NoiseChannel.ENABLED (m : MMU) : Option Bool := m.read_bit ioregs.NR_52 3

def NoiseChannel.setENABLED (m : MMU) (v : Bool) : Option MMU :=
  m.set_bit ioregs.NR_52 3 v

/-- `NoiseChannel::reset`: reload the channel parameters from the registers. -/
def NoiseChannel.reset (c : NoiseChannel) (m : MMU) : Option NoiseChannel := do
  let vol ← NoiseChannel.INITIAL_VOLUME m
  let len ← NoiseChannel.SOUND_LENGTH m
  let ratio ← NoiseChannel.FREQ_RATIO m
  let shift ← NoiseChannel.FREQ_SHIFT_CLOCK m
  let env ← NoiseChannel.ENVELOPE_SHIFTS m
  some { c with
    buff := []
    volume := vol
    length := len
    timer := ratio <<< shift
    envelope_count := env
    sample_counter := 0 }

/-- The shift of the feedback register in `NoiseChannel::tick`: every cell
moves one place down, then the feedback bit is stored at index 15 (or index
`(16-1)/2 = 7` when the short-mode flag is set). -/
def NoiseChannel.shift_lsfr (lsfr : Nat → Bool) (short : Bool) : Nat → Bool :=
  let new := lsfr 1 != lsfr 0
  let shifted := fun i => if i + 1 < NOISE_LSFR_SIZE then lsfr (i + 1) else lsfr i
  if short then
    fun i => if i = (NOISE_LSFR_SIZE - 1) / 2 then new else shifted i
  else
    fun i => if i = NOISE_LSFR_SIZE - 1 then new else shifted i

/-- `NoiseChannel::tick`: handle a trigger, advance the timer, clock the LFSR
when the timer expires, and append a sample every `SAMPLE_APPEND_RATE` ticks;
an emitted sample is `(i16::MAX / 15) * volume` when bit 0 is clear, else 0. -/
def NoiseChannel.tick (c : NoiseChannel) (m : MMU) : Option (NoiseChannel × MMU) := do
  let initial ← NoiseChannel.INITIAL m
  let (c, m) ←
    if initial then do
      let c ← NoiseChannel.reset c m
      let m ← NoiseChannel.setINITIAL m false
      let m ← NoiseChannel.setENABLED m true
      some (c, m)
    else
      some (c, m)
  let enabled ← NoiseChannel.ENABLED m
  if ¬enabled then
    some (c, m)
  else do
    let c := if c.timer > 0 then { c with timer := c.timer - 1 } else c
    let (c, m) ←
      if c.timer = 0 then do
        let short ← NoiseChannel.LSFR_7BIT m
        let ratio ← NoiseChannel.FREQ_RATIO m
        let shift ← NoiseChannel.FREQ_SHIFT_CLOCK m
        some ({ c with lsfr := NoiseChannel.shift_lsfr c.lsfr short,
                       timer := ratio <<< shift }, m)
      else
        some (c, m)
    let c := { c with sample_counter := c.sample_counter + 1 }
    if c.sample_counter = SAMPLE_APPEND_RATE then
      let sample : Int := if ¬c.lsfr 0 then (32767 / 15) * (c.volume : Int) else 0
      some ({ c with buff := c.buff ++ [sample], sample_counter := 0 }, m)
    else
      some (c, m)

/- ===== GPU (`src/dev/gpu.rs`) ===== -/

def SCREEN_WIDTH : Nat := 160
def SCREEN_HEIGHT : Nat := 144
def VBLANK_HEIGHT : Nat := 10
def OAM_SEARCH_CYCLES : Nat := 20
def LCD_TRANSFER_CYCLES : Nat := 43
def HBLANK_CYCLES : Nat := 51
def SCANLINE_CYCLES : Nat := OAM_SEARCH_CYCLES + LCD_TRANSFER_CYCLES + HBLANK_CYCLES
def FRAME_CYCLES : Nat := SCANLINE_CYCLES * (VBLANK_HEIGHT + SCREEN_HEIGHT)
def TILE_MAP_1 : Nat := 0x9800
def TILE_MAP_2 : Nat := 0x9C00
def TILE_BLOCK_1 : Nat := 0x8000
def TILE_BLOCK_2 : Nat := 0x9000
def TILE_SIZE : Nat := 16
def SPRITE_COUNT : Nat := 40
def SCANLINE_SPRITE_COUNT : Nat := 10

abbrev Color := Nat × Nat × Nat

def WHITE : Color := (255, 255, 255)
def LIGHT_GRAY : Color := (184, 184, 184)
def DARK_GRAY : Color := (115, 115, 155)
def BLACK : Color := (0, 0, 0)
def TRANSPARENT : Color := (0, 255, 0)

/-- `get_color`: translate a 2-bit shade to RGB; other values panic. -/
def get_color (num : Nat) : Option Color :=
  if num = 0 then some WHITE
  else if num = 1 then some LIGHT_GRAY
  else if num = 2 then some DARK_GRAY
  else if num = 3 then some BLACK
  else none

structure Sprite where
  y : Nat
  x : Nat
  tile_idx : Nat
  priority : Bool
  y_flip : Bool
  x_flip : Bool
  palette : Bool
deriving DecidableEq

instance : Inhabited Sprite :=
  ⟨{ y := 0, x := 0, tile_idx := 0, priority := false,
     y_flip := false, x_flip := false, palette := false }⟩

inductive GPUMode
  | HBLANK
  | VBLANK
  | OAM_SEARCH
  | LCD_TRANSFER
deriving DecidableEq

structure GPU where
  ly : Nat
  lx : Nat
  /-- window-line counter (`wy` field of the struct, distinct from the WY register) -/
  wy : Nat
  win_rendered : Bool
  sprites : List Sprite
  sprites_line : List Nat
  framebuff : Nat → Color

/-- One 4-byte OAM record decoded as in `read_oam` (`src/dev/gpu.rs`). -/
def oamSprite (oam : Nat → Nat) (i : Nat) : Sprite :=
  let off := 4 * i
  { y := oam off
    x := oam (off + 1)
    tile_idx := oam (off + 2)
    priority := (oam (off + 3) &&& 0x80) != 0
    y_flip := (oam (off + 3) &&& 0x40) != 0
    x_flip := (oam (off + 3) &&& 0x20) != 0
    palette := (oam (off + 3) &&& 0x10) != 0 }

/-- Stable insertion into a list sorted by ascending `x`
(`Vec::sort_by` with `x.partial_cmp` is a stable ascending sort). -/
def insertByX (s : Sprite) : List Sprite → List Sprite
  | [] => [s]
  | t :: ts => if t.x < s.x then t :: insertByX s ts else s :: t :: ts

/-- `read_oam`: load the 40 sprite records from OAM and sort them by X. -/
def GPU.read_oam (m : MMU) : List Sprite :=
  ((List.range SPRITE_COUNT).map (oamSprite m.oam)).foldr insertByX []

/- GPU register accessors (`src/dev/gpu.rs`). -/

def GPU.LY (m : MMU) : Option Nat := m.read ioregs.LY
def GPU.LYC (m : MMU) : Option Nat := m.read ioregs.LYC
def GPU.WX (m : MMU) : Option Nat := m.read ioregs.WX
def GPU.WY (m : MMU) : Option Nat := m.read ioregs.WY
def GPU.SCX (m : MMU) : Option Nat := m.read ioregs.SCX
def GPU.SCY (m : MMU) : Option Nat := m.read ioregs.SCY
def GPU._LY (m : MMU) (val : Nat) : Option MMU := m.write ioregs.LY val

def GPU.LCD_DISPLAY_ENABLE (m : MMU) : Option Bool := m.read_bit ioregs.LCDC 7
def GPU.WINDOW_TILE_MAP (m : MMU) : Option Bool := m.read_bit ioregs.LCDC 6
def GPU.WINDOW_ENABLED (m : MMU) : Option Bool := m.read_bit ioregs.LCDC 5
def GPU.TILE_ADDRESSING (m : MMU) : Option Bool := m.read_bit ioregs.LCDC 4
def GPU.BG_TILE_MAP (m : MMU) : Option Bool := m.read_bit ioregs.LCDC 3
def GPU.SPRITE_SIZE (m : MMU) : Option Bool := m.read_bit ioregs.LCDC 2
def GPU.SPRITE_ENABLED (m : MMU) : Option Bool := m.read_bit ioregs.LCDC 1
def GPU.DISPLAY_PRIORITY (m : MMU) : Option Bool := m.read_bit ioregs.LCDC 0
def GPU._LCD_DISPLAY_ENABLE (m : MMU) (flg : Bool) : Option MMU := m.set_bit ioregs.LCDC 7 flg

def GPU.COINCIDENCE_INTERRUPT_ENABLE (m : MMU) : Option Bool := m.read_bit ioregs.STAT 6
def GPU.MODE_2_OAM_INTERRUPT_ENABLE (m : MMU) : Option Bool := m.read_bit ioregs.STAT 5
def GPU.MODE_1_VBLANK_INTERRUPT_ENABLE (m : MMU) : Option Bool := m.read_bit ioregs.STAT 4
def GPU.MODE_0_HBLANK_INTERRUPT_ENABLE (m : MMU) : Option Bool := m.read_bit ioregs.STAT 3
def GPU.COINCIDENCE_FLAG (m : MMU) : Option Bool := m.read_bit ioregs.STAT 2
def GPU._COINCIDENCE_FLAG (m : MMU) (flg : Bool) : Option MMU := m.set_bit ioregs.STAT 2 flg

/-- `GPU::MODE`: the low two STAT bits. -/
def GPU.MODE (m : MMU) : Option GPUMode :=
  (m.read ioregs.STAT).map (fun stat =>
    let v := stat &&& 0x3
    if v = 0 then GPUMode.HBLANK
    else if v = 1 then GPUMode.VBLANK
    else if v = 2 then GPUMode.OAM_SEARCH
    else GPUMode.LCD_TRANSFER)

/-- `GPU::_MODE`: store the mode in the low two STAT bits. -/
def GPU._MODE (m : MMU) (mode : GPUMode) : Option MMU := do
  let stat ← m.read ioregs.STAT
  let code : Nat :=
    match mode with
    | GPUMode.HBLANK => 0
    | GPUMode.VBLANK => 1
    | GPUMode.OAM_SEARCH => 2
    | GPUMode.LCD_TRANSFER => 3
  m.write ioregs.STAT ((stat &&& 0b11111100) ||| code)

def GPU.BG_COLOR_0_SHADE (m : MMU) : Option Nat := (m.read ioregs.BGP).map (fun b => (b >>> 0) &&& 0x03)
def GPU.BG_COLOR_1_SHADE (m : MMU) : Option Nat := (m.read ioregs.BGP).map (fun b => (b >>> 2) &&& 0x03)
def GPU.BG_COLOR_2_SHADE (m : MMU) : Option Nat := (m.read ioregs.BGP).map (fun b => (b >>> 4) &&& 0x03)
def GPU.BG_COLOR_3_SHADE (m : MMU) : Option Nat := (m.read ioregs.BGP).map (fun b => (b >>> 6) &&& 0x03)
def GPU.OBP0_COLOR_1_SHADE (m : MMU) : Option Nat := (m.read ioregs.OBP_0).map (fun b => (b >>> 2) &&& 0x03)
def GPU.OBP0_COLOR_2_SHADE (m : MMU) : Option Nat := (m.read ioregs.OBP_0).map (fun b => (b >>> 4) &&& 0x03)
def GPU.OBP0_COLOR_3_SHADE (m : MMU) : Option Nat := (m.read ioregs.OBP_0).map (fun b => (b >>> 6) &&& 0x03)
def GPU.OBP1_COLOR_1_SHADE (m : MMU) : Option Nat := (m.read ioregs.OBP_1).map (fun b => (b >>> 2) &&& 0x03)
def GPU.OBP1_COLOR_2_SHADE (m : MMU) : Option Nat := (m.read ioregs.OBP_1).map (fun b => (b >>> 4) &&& 0x03)
def GPU.OBP1_COLOR_3_SHADE (m : MMU) : Option Nat := (m.read ioregs.OBP_1).map (fun b => (b >>> 6) &&& 0x03)

/-- `GPU::bg_color`: translate a 2-bit colour index through BGP. -/
def GPU.bg_color (m : MMU) (color : Nat) : Option Color := do
  let shade ←
    if color = 0 then GPU.BG_COLOR_0_SHADE m
    else if color = 1 then GPU.BG_COLOR_1_SHADE m
    else if color = 2 then GPU.BG_COLOR_2_SHADE m
    else if color = 3 then GPU.BG_COLOR_3_SHADE m
    else some 0xFF
  get_color shade

/-- `GPU::obp0_color`: colour 0 is transparent, others go through OBP0. -/
def GPU.obp0_color (m : MMU) (color : Nat) : Option Color := do
  if color = 0 then
    some TRANSPARENT
  else
    let shade ←
      if color = 1 then GPU.OBP0_COLOR_1_SHADE m
      else if color = 2 then GPU.OBP0_COLOR_2_SHADE m
      else if color = 3 then GPU.OBP0_COLOR_3_SHADE m
      else some 0x80
    get_color shade

/-- `GPU::obp1_color`: colour 0 is transparent, others go through OBP1. -/
def GPU.obp1_color (m : MMU) (color : Nat) : Option Color := do
  if color = 0 then
    some TRANSPARENT
  else
    let shade ←
      if color = 1 then GPU.OBP1_COLOR_1_SHADE m
      else if color = 2 then GPU.OBP1_COLOR_2_SHADE m
      else if color = 3 then GPU.OBP1_COLOR_3_SHADE m
      else some 0x40
    get_color shade

/-- `GPU::bytes_to_color_num`: combine the two tile-plane bytes at column
`off` into a 2-bit colour index (`mask = 0x80 >> off`). -/
def GPU.bytes_to_color_num (b1 b2 : Nat) (off : Nat) : Nat :=
  let mask := 0x80 >>> off
  match (b2 &&& mask) != 0, (b1 &&& mask) != 0 with
  | true, true => 3
  | true, false => 2
  | false, true => 1
  | false, false => 0

/-- `GPU::update_ly`: mirror the internal line counter into the LY register
and recompute the coincidence flag. -/
def GPU.update_ly (g : GPU) (m : MMU) : Option MMU := do
  let lyc ← GPU.LYC m
  let m ← GPU._LY m g.ly
  GPU._COINCIDENCE_FLAG m (g.ly == lyc)

/-- `GPU::stat_int`: request the STAT interrupt (IF bit 1) — only while the
LCD is enabled. -/
def GPU.stat_int (m : MMU) : Option MMU := do
  let en ← GPU.LCD_DISPLAY_ENABLE m
  if en then m.set_bit ioregs.IF 1 true else some m

/-- `GPU::vblank_int`: request the VBLANK interrupt (IF bit 0) — only while
the LCD is enabled. -/
def GPU.vblank_int (m : MMU) : Option MMU := do
  let en ← GPU.LCD_DISPLAY_ENABLE m
  if en then m.set_bit ioregs.IF 0 true else some m

def GPU.vblank_stat_int (m : MMU) : Option MMU := do
  let en ← GPU.MODE_1_VBLANK_INTERRUPT_ENABLE m
  if en then GPU.stat_int m else some m

def GPU.hblank_stat_int (m : MMU) : Option MMU := do
  let en ← GPU.MODE_0_HBLANK_INTERRUPT_ENABLE m
  if en then GPU.stat_int m else some m

def GPU.oam_stat_int (m : MMU) : Option MMU := do
  let en ← GPU.MODE_2_OAM_INTERRUPT_ENABLE m
  if en then GPU.stat_int m else some m

def GPU.lyc_stat_int (m : MMU) : Option MMU := do
  let en ← GPU.COINCIDENCE_INTERRUPT_ENABLE m
  let flg ← GPU.COINCIDENCE_FLAG m
  if en ∧ flg then GPU.stat_int m else some m

/-- `GPU::oam_scanline`: select (in sorted order) the indices of the first up
to 10 sprites whose Y range intersects `ly + 16`, padding the remaining
slots with 0xFF.  Nat additions wrap as the source's `u8` arithmetic does. -/
def GPU.oam_scanline (g : GPU) (m : MMU) : Option GPU := do
  let y := (g.ly + 16) % 256
  let h ← (GPU.SPRITE_SIZE m).map (fun b => if b then 16 else 8)
  let sel := (((g.sprites.enum).filter
      (fun p => decide (p.2.y ≤ y ∧ y < (p.2.y + h) % 256))).map Prod.fst).take
      SCANLINE_SPRITE_COUNT
  some { g with sprites_line := sel ++ List.replicate (SCANLINE_SPRITE_COUNT - sel.length) 0xFF }

/-- The tile-data address resolution shared verbatim by `draw_background` and
`draw_window`: LCDC bit 4 selects unsigned indexing from 0x8000 or signed
indexing around 0x9000; the result is an offset into VRAM. -/
def GPU.tile_addr (tile_addressing : Bool) (tile : Nat) : Nat :=
  if tile_addressing then
    TILE_BLOCK_1 + TILE_SIZE * tile - VRAM_ADDR
  else if tile < 0x80 then
    TILE_BLOCK_2 + TILE_SIZE * tile - VRAM_ADDR
  else
    TILE_BLOCK_2 - TILE_SIZE * (256 - tile) - VRAM_ADDR

/-- `GPU::draw_background`: render the background pixel at `(lx, ly)`. -/
def GPU.draw_background (g : GPU) (m : MMU) : Option GPU := do
  let lx := g.lx
  let ly := g.ly
  let scx ← GPU.SCX m
  let scy ← GPU.SCY m
  let ta ← GPU.TILE_ADDRESSING m
  let btm ← GPU.BG_TILE_MAP m
  let tile_map := (if btm then TILE_MAP_2 else TILE_MAP_1) - VRAM_ADDR
  let x := (scx + lx) % 256
  let y := (scy + ly) % 256
  let x_tile := x / 8
  let y_tile := y / 8
  let off := (32 * y_tile + x_tile) % 1024
  let tile_no := m.vram (tile_map + off)
  let start := GPU.tile_addr ta tile_no
  let tile_row := y - y_tile * 8
  let b1 := m.vram (start + 2 * tile_row)
  let b2 := m.vram (start + 2 * tile_row + 1)
  let tile_col := x - x_tile * 8
  let color := GPU.bytes_to_color_num b1 b2 tile_col
  let pixel_idx := ly * SCREEN_WIDTH + lx
  if pixel_idx < SCREEN_WIDTH * SCREEN_HEIGHT then
    let c ← GPU.bg_color m color
    some { g with framebuff := upd g.framebuff pixel_idx c }
  else
    some g

/-- `GPU::draw_window`: render the window pixel at `(lx, ly)` when the pixel
lies in the window, marking `win_rendered`. -/
def GPU.draw_window (g : GPU) (m : MMU) : Option GPU := do
  let lx := g.lx + 7
  let ly := g.ly
  let wx ← GPU.WX m
  let wy ← GPU.WY m
  if ¬(wy ≤ ly ∧ wx ≤ lx) then
    some g
  else
    let g := { g with win_rendered := true }
    let ta ← GPU.TILE_ADDRESSING m
    let wtm ← GPU.WINDOW_TILE_MAP m
    let tile_map := (if wtm then TILE_MAP_2 else TILE_MAP_1) - VRAM_ADDR
    let x := lx - wx
    let y := g.wy
    let x_tile := x / 8
    let y_tile := y / 8
    let off := (32 * y_tile + x_tile) % 1024
    let tile_no := m.vram (tile_map + off)
    let start := GPU.tile_addr ta tile_no
    let tile_row := y - y_tile * 8
    let b1 := m.vram (start + 2 * tile_row)
    let b2 := m.vram (start + 2 * tile_row + 1)
    let tile_col := x - x_tile * 8
    let color := GPU.bytes_to_color_num b1 b2 tile_col
    let pixel_idx := ly * SCREEN_WIDTH + lx - 7
    if pixel_idx < SCREEN_WIDTH * SCREEN_HEIGHT then
      let c ← GPU.bg_color m color
      some { g with framebuff := upd g.framebuff pixel_idx c }
    else
      some g

/-- The sprite-selection loop of `GPU::draw_sprite`: walk `sprites_line` until
0xFF, returning the first sprite whose X range covers `lx`; an index beyond
the sprite cache would panic (`none`). -/
def GPU.find_sprite (sprites : List Sprite) (lx sprite_w : Nat) : List Nat → Option (Option Sprite)
  | [] => some none
  | idx :: rest =>
    if idx = 0xFF then
      some none
    else
      match sprites.get? idx with
      | none => none
      | some tmp =>
        if lx < tmp.x ∧ tmp.x ≤ (lx + sprite_w) % 256 then some (some tmp)
        else GPU.find_sprite sprites lx sprite_w rest

/-- `GPU::draw_sprite`: draw the first selected sprite covering `lx`, honouring
Y/X flips, the 8x16 tile-pair rule, palettes, transparency and the
below-background priority flag.  `u8` subtractions wrap as in the source. -/
def GPU.draw_sprite (g : GPU) (m : MMU) : Option GPU := do
  let sprite_h ← (GPU.SPRITE_SIZE m).map (fun b => if b then 16 else 8)
  let sprite_w := 8
  let lx := g.lx
  let ly := g.ly
  let found ← GPU.find_sprite g.sprites lx sprite_w g.sprites_line
  match found with
  | none => some g
  | some sprite =>
    let sprite_row := ((ly + 16) + 256 - sprite.y) % 256
    let sprite_row := if sprite.y_flip then (sprite_h + 256 - sprite_row) % 256 else sprite_row
    let (tile_idx, sprite_row) :=
      if sprite_h = 16 then
        if sprite_row ≥ 8 then (sprite.tile_idx ||| 0x01, sprite_row - 8)
        else (sprite.tile_idx &&& 0xFE, sprite_row)
      else (sprite.tile_idx, sprite_row)
    let base_addr := TILE_BLOCK_1 + TILE_SIZE * tile_idx - VRAM_ADDR + 2 * sprite_row
    let b1 := m.vram base_addr
    let b2 := m.vram (base_addr + 1)
    let off := ((lx + sprite_w) + 256 - sprite.x) % 256
    let sprite_col := if sprite.x_flip then (sprite_w - 1 + 256 - off) % 256 else off
    let color_idx := GPU.bytes_to_color_num b1 b2 sprite_col
    let color ← if sprite.palette then GPU.obp1_color m color_idx else GPU.obp0_color m color_idx
    let pixel_idx := ly * SCREEN_WIDTH + lx
    let bg0 ← GPU.BG_COLOR_0_SHADE m
    let bg_color_0 ← GPU.bg_color m bg0
    let write : Option GPU :=
      if pixel_idx < SCREEN_WIDTH * SCREEN_HEIGHT ∧ color ≠ TRANSPARENT then
        some { g with framebuff := upd g.framebuff pixel_idx color }
      else some g
    if sprite.priority then
      -- the priority test indexes the framebuffer before any bounds check
      if pixel_idx < SCREEN_WIDTH * SCREEN_HEIGHT then
        if g.framebuff pixel_idx ≠ bg_color_0 then some g else write
      else none
    else write

/-- `GPU::draw_dot`: background, then window, then sprites, each gated by its
LCDC enable bit. -/
def GPU.draw_dot (g : GPU) (m : MMU) : Option GPU := do
  let dp ← GPU.DISPLAY_PRIORITY m
  let g ←
    if dp then do
      let g ← GPU.draw_background g m
      let we ← GPU.WINDOW_ENABLED m
      if we then GPU.draw_window g m else some g
    else
      some g
  let se ← GPU.SPRITE_ENABLED m
  if se then GPU.draw_sprite g m else some g

/-- One iteration of the 4-dot loop in the LCD_TRANSFER arm of `GPU::step`:
draw a dot if the LCD is enabled, then advance `lx` (with `u8` wrap). -/
def GPU.transfer_iter (g : GPU) (m : MMU) : Option GPU := do
  let en ← GPU.LCD_DISPLAY_ENABLE m
  let g ← if en then GPU.draw_dot g m else some g
  some { g with lx := (g.lx + 1) % 256 }

/-- `GPU::step` (`Clocked` impl): the four-mode per-scanline state machine. -/
def GPU.step (g : GPU) (m : MMU) : Option (GPU × MMU) := do
  let m ← g.update_ly m
  let mode ← GPU.MODE m
  match mode with
  | GPUMode.OAM_SEARCH => do
      let g := { g with sprites := GPU.read_oam m }
      let g ← g.oam_scanline m
      let m ← GPU._MODE m GPUMode.LCD_TRANSFER
      some (g, m)
  | GPUMode.LCD_TRANSFER => do
      let g ← GPU.transfer_iter g m
      let g ← GPU.transfer_iter g m
      let g ← GPU.transfer_iter g m
      let g ← GPU.transfer_iter g m
      if g.lx = SCREEN_WIDTH then do
        let m ← GPU._MODE m GPUMode.HBLANK
        let m ← GPU.hblank_stat_int m
        some (g, m)
      else
        some (g, m)
  | GPUMode.HBLANK => do
      let g := { g with lx := 0, ly := (g.ly + 1) % 256 }
      let g :=
        if g.win_rendered then { g with win_rendered := false, wy := (g.wy + 1) % 256 }
        else g
      let m ← g.update_ly m
      let m ← GPU.lyc_stat_int m
      if g.ly = SCREEN_HEIGHT then do
        let m ← GPU._MODE m GPUMode.VBLANK
        let m ← GPU.vblank_int m
        let m ← GPU.vblank_stat_int m
        some (g, m)
      else do
        let m ← GPU._MODE m GPUMode.OAM_SEARCH
        let m ← GPU.oam_stat_int m
        some (g, m)
  | GPUMode.VBLANK => do
      let g := { g with lx := 0,
                        ly := if g.ly = SCREEN_HEIGHT + VBLANK_HEIGHT then 0
                              else (g.ly + 1) % 256 }
      let m ← g.update_ly m
      let m ← GPU.lyc_stat_int m
      if g.ly = 0 then do
        let g := { g with wy := 0 }
        let m ← GPU._MODE m GPUMode.OAM_SEARCH
        let m ← GPU.oam_stat_int m
        some (g, m)
      else
        some (g, m)

/-- `GPU::new`: fresh GPU state; enables the LCD bit, sets mode OAM_SEARCH and
mirrors LY into the register file. -/
def GPU.new (m : MMU) : Option (GPU × MMU) := do
  let g : GPU :=
    { lx := 0
      ly := 0
      wy := 0
      win_rendered := false
      sprites := List.replicate SPRITE_COUNT default
      sprites_line := List.replicate SCANLINE_SPRITE_COUNT 0xFF
      framebuff := fun _ => WHITE }
  let m ← GPU._LCD_DISPLAY_ENABLE m true
  let m ← GPU._MODE m GPUMode.OAM_SEARCH
  let m ← g.update_ly m
  some (g, m)

/- ===== State middleware (`src/state.rs`) ===== -/

/-- `State` bundles the devices around the MMU.  The `apu` and `joypad`
members of the source struct are not carried: `APU::new` only reads registers
and no operation modelled here touches either device. -/
structure State where
  gpu : GPU
  timer : Timer
  dma : DMA
  mmu : MMU

/-- `State::new`: build the MMU and let `GPU::new` initialise the video
registers. -/
def State.new (bootstrap : Nat → Nat) (mapper : MBC1) : Option State := do
  let mmu := MMU.new bootstrap mapper
  let (gpu, mmu) ← GPU.new mmu
  some { gpu := gpu, timer := Timer.new, dma := DMA.new, mmu := mmu }

/-- `State::safe_write`: store through the MMU, then deliver the write
side effects (LYC coincidence recheck, DIV clear + pre-divider reset, TIMA
pre-divider reset, DMA start). -/
def State.safe_write (s : State) (addr : Nat) (value : Nat) : Option State := do
  let mmu ← s.mmu.write addr value
  let s := { s with mmu := mmu }
  if addr = ioregs.LYC then do
    let mmu ← s.gpu.update_ly s.mmu
    some { s with mmu := mmu }
  else if addr = ioregs.DIV then do
    let mmu ← s.mmu.write addr 0
    some { s with mmu := mmu, timer := s.timer.reset_internal_div }
  else if addr = ioregs.TIMA then
    some { s with timer := s.timer.reset_internal_tima }
  else if addr = ioregs.DMA then
    some { s with dma := s.dma.start }
  else
    some s

/-- `State::safe_read`: plain MMU read (the `is_addr_allowed` predicate below
is never consulted by it). -/
def State.safe_read (s : State) (addr : Nat) : Option Nat :=
  s.mmu.read addr

/-- `State::write_word`: little-endian 16-bit write through `safe_write`
(the `u8` casts truncate, the `u16` address increment wraps). -/
def State.write_word (s : State) (addr : Nat) (w : Nat) : Option State := do
  let s ← s.safe_write addr (w &&& 0xFF)
  s.safe_write ((addr + 1) % 0x10000) ((w >>> 8) &&& 0xFF)

/-- `State::read_word`: little-endian 16-bit read through `safe_read`. -/
def State.read_word (s : State) (addr : Nat) : Option Nat := do
  let lo ← s.safe_read addr
  let hi ← s.safe_read ((addr + 1) % 0x10000)
  some (lo + (hi <<< 8))

/-- `State::is_addr_allowed`: the restricted-access predicate (VRAM during
LCD_TRANSFER, VRAM/OAM during OAM_SEARCH).  Defined in the source but not
called from `safe_read`/`safe_write`. -/
def State.is_addr_allowed (s : State) (addr : Nat) : Option Bool := do
  let is_vram := VRAM_ADDR ≤ addr ∧ addr < VRAM_ADDR + VRAM_SIZE
  let is_oam := OAM_ADDR ≤ addr ∧ addr < OAM_ADDR + OAM_SIZE
  let mode ← GPU.MODE s.mmu
  if mode = GPUMode.LCD_TRANSFER ∧ is_vram then some false
  else if mode = GPUMode.OAM_SEARCH ∧ (is_oam ∨ is_vram) then some false
  else some true

/- ===== CPU (`src/dev/cpu.rs`) ===== -/

/-- `word`: big-endian pair to 16-bit word. -/
def word (upper lower : Nat) : Nat := (upper <<< 8) + lower

/-- `word_split`: upper and lower bytes of a 16-bit word (`as u8` truncates). -/
def word_split (val : Nat) : Nat × Nat := ((val >>> 8) &&& 0xFF, val &&& 0xFF)

/-- `safe_w_add`: wrapping 16-bit addition. -/
def safe_w_add (op1 op2 : Nat) : Nat := (op1 + op2) % 0x10000

/-- `safe_w_sub`: wrapping 16-bit subtraction (operands are `u16`). -/
def safe_w_sub (op1 op2 : Nat) : Nat := (op1 % 0x10000 + 0x10000 - op2 % 0x10000) % 0x10000

/-- The CPU register file.  The `Reg` unions are held as 16-bit words; the
flag register F is held as its four boolean members, exactly as the source. -/
structure CPU where
  A : Nat
  BC : Nat
  DE : Nat
  HL : Nat
  SP : Nat
  PC : Nat
  Z : Bool
  N : Bool
  H : Bool
  C : Bool
  IME : Bool
  STOP : Bool
  HALT : Bool

/-- `CPU::default` (post-bootstrap register values). -/
def CPU.new : CPU :=
  { A := 0x01, BC := 0x0013, DE := 0x00D8, HL := 0x014D, SP := 0xFFFE, PC := 0x0000
    Z := true, N := false, H := true, C := true
    IME := true, STOP := false, HALT := false }

/-- `CPU::F`: assemble the flag byte (low nibble always zero). -/
def CPU.F (c : CPU) : Nat :=
  (if c.Z then 1 <<< 7 else 0) ||| (if c.N then 1 <<< 6 else 0) |||
  (if c.H then 1 <<< 5 else 0) ||| (if c.C then 1 <<< 4 else 0)

/-- `CPU::set_F`: load the four flags from a byte. -/
def CPU.set_F (c : CPU) (val : Nat) : CPU :=
  { c with
    Z := (val &&& (1 <<< 7)) != 0
    N := (val &&& (1 <<< 6)) != 0
    H := (val &&& (1 <<< 5)) != 0
    C := (val &&& (1 <<< 4)) != 0 }

/-- `CPU::push_u16`: SP falls by 2, then the word is stored at SP. -/
def CPU.push_u16 (c : CPU) (s : State) (val : Nat) : Option (CPU × State) := do
  let c := { c with SP := safe_w_sub c.SP 2 }
  let s ← s.write_word c.SP val
  some (c, s)

/-- `CPU::pop_u16`: the word at SP is read, then SP rises by 2. -/
def CPU.pop_u16 (c : CPU) (s : State) : Option (CPU × State × Nat) := do
  let val ← s.read_word c.SP
  some ({ c with SP := safe_w_add c.SP 2 }, s, val)

/-- `CPU::call`: push PC, jump. -/
def CPU.call (c : CPU) (s : State) (addr : Nat) : Option (CPU × State) := do
  let (c, s) ← c.push_u16 s c.PC
  some ({ c with PC := addr }, s)

/-- `CPU::ret`: pop into PC. -/
def CPU.ret (c : CPU) (s : State) : Option (CPU × State) := do
  let (c, s, addr) ← c.pop_u16 s
  some ({ c with PC := addr }, s)

/- Interrupt bits and vector table (`src/dev/cpu.rs`). -/
def VBLANK_INT : Nat := 0
def STAT_INT : Nat := 1
def TIMER_INT : Nat := 2
def SERIAL_INT : Nat := 3
def JOYPAD_INT : Nat := 4
def IVT : List Nat := [0x40, 0x48, 0x50, 0x58, 0x60]

/-- The bit-scanning loop of `CPU::interrupts`: on a stopped CPU any bit other
than the joypad's executes `break` (ending the scan with 0 cycles); a
requested bit clears HALT/STOP and, when IME is set, clears its IF bit,
calls the vector and drops IME — either way costing 5 cycles. -/
def CPU.int_loop (c : CPU) (s : State) (in_e in_f : Nat) :
    List Nat → Option (CPU × State × Nat)
  | [] => some (c, s, 0)
  | bit :: rest =>
    if c.STOP ∧ bit ≠ JOYPAD_INT then
      some (c, s, 0)
    else if ((in_f &&& (1 <<< bit)) &&& in_e) ≠ 0 then do
      let c := { c with HALT := false, STOP := false }
      if c.IME then do
        let mmu ← s.mmu.set_bit ioregs.IF bit false
        let s := { s with mmu := mmu }
        let (c, s) ← c.call s (IVT.getD bit 0)
        some ({ c with IME := false }, s, 5)
      else
        some (c, s, 5)
    else
      c.int_loop s in_e in_f rest

/-- `CPU::interrupts`: the between-instruction interrupt check; returns the
machine cycles consumed. -/
def CPU.interrupts (c : CPU) (s : State) : Option (CPU × State × Nat) := do
  if ¬c.STOP ∧ ¬c.HALT ∧ ¬c.IME then
    some (c, s, 0)
  else do
    let in_e ← s.safe_read ioregs.IE
    let in_f ← s.safe_read ioregs.IF
    c.int_loop s in_e in_f [0, 1, 2, 3, 4]

/- The PUSH/POP instruction handlers (`src/dev/cpu.rs`, opcodes
0xC5/0xD5/0xE5/0xF5 and 0xC1/0xD1/0xE1/0xF1); each returns its machine-cycle
cost. -/

def op_PUSH_BC (c : CPU) (s : State) : Option (CPU × State × Nat) := do
  let (c, s) ← c.push_u16 s c.BC
  some (c, s, 4)

def op_PUSH_DE (c : CPU) (s : State) : Option (CPU × State × Nat) := do
  let (c, s) ← c.push_u16 s c.DE
  some (c, s, 4)

def op_PUSH_HL (c : CPU) (s : State) : Option (CPU × State × Nat) := do
  let (c, s) ← c.push_u16 s c.HL
  some (c, s, 4)

def op_PUSH_AF (c : CPU) (s : State) : Option (CPU × State × Nat) := do
  let (c, s) ← c.push_u16 s (word c.A c.F)
  some (c, s, 4)

def op_POP_BC (c : CPU) (s : State) : Option (CPU × State × Nat) := do
  let (c, s, val) ← c.pop_u16 s
  some ({ c with BC := val }, s, 3)

def op_POP_DE (c : CPU) (s : State) : Option (CPU × State × Nat) := do
  let (c, s, val) ← c.pop_u16 s
  some ({ c with DE := val }, s, 3)

def op_POP_HL (c : CPU) (s : State) : Option (CPU × State × Nat) := do
  let (c, s, val) ← c.pop_u16 s
  some ({ c with HL := val }, s, 3)

def op_POP_AF (c : CPU) (s : State) : Option (CPU × State × Nat) := do
  let (c, s, val) ← c.pop_u16 s
  let (a, f) := word_split val
  let c := c.set_F f
  some ({ c with A := a }, s, 3)

/- ===== Concrete fixtures used by the theorems ===== -/

/-- All-zero byte store (zero ROM image / zero bootstrap blob). -/
def zeroBytes : Nat → Nat := fun _ => 0

/-- ROM image whose every byte names its own 16 KiB bank, so that bank
switching is observable byte-wise. -/
def bankedRom : Nat → Nat := fun i => (i / ROM_BANK_SIZE) % 256

/-- The reset state `State::new(MBC1::new(vec![0; ..]))` over a zero blob. -/
def initState : Option State := State.new zeroBytes (MBC1.new zeroBytes)

/-- A placeholder state used only as a `getD` default. -/
def dummyState : State :=
  { gpu :=
      { ly := 0, lx := 0, wy := 0, win_rendered := false
        sprites := [], sprites_line := [], framebuff := fun _ => WHITE }
    timer := Timer.new
    dma := DMA.new
    mmu := MMU.new zeroBytes (MBC1.new zeroBytes) }

/-- The reset state as a plain value. -/
def initStateD : State := initState.getD dummyState

/-- One timer step over a `(Timer, MMU)` pair, for iteration. -/
def timerStepP (p : Timer × MMU) : Option (Timer × MMU) := Timer.step p.1 p.2

/-- C1 fixture: reset state with a recognisable pattern in work RAM and a
write of 0xC0 to the DMA register (which starts a transfer from 0xC000). -/
def dmaStarted : Option State := do
  let s ← initState
  let s := { s with mmu := { s.mmu with ram := fun i => (i + 1) % 256 } }
  s.safe_write ioregs.DMA 0xC0

/-- C2/C6 fixture: fresh MBC1 over the banked ROM. -/
def bankedMBC1 : MBC1 := MBC1.new bankedRom

/-- C2 fixture: the mapper after the control writes 0x01→0x4000, 0x01→0x2000
(bank index 0x21), still in ROM banking mode. -/
def c2Mapper : MBC1 := (bankedMBC1.on_status 0x4000 0x01).on_status 0x2000 0x01

/-- C2 fixture: an MMU over `c2Mapper`. -/
def c2MMU : MMU := MMU.new zeroBytes c2Mapper

/-- C2 fixture: `c2MMU` after the CPU write of 1 to 0x6000 (mode switch). -/
def c2Written : MMU := (c2MMU.write 0x6000 1).getD c2MMU

/-- C3 fixture: reset state with LCDC bit 7 cleared (LCD disabled, value
0x11) and the internal line counter at 5, in mode OAM_SEARCH. -/
def c3Start : Option (GPU × MMU) := do
  let s ← initState
  let mmu ← s.mmu.write ioregs.LCDC 0x11
  some ({ s.gpu with ly := 5 }, mmu)

/-- C4 fixture: reset state with IE = IF = 0x10 (joypad requested, enabled). -/
def c4StopState : Option State := do
  let s ← initState
  let mmu ← s.mmu.write ioregs.IE 0x10
  let mmu ← mmu.write ioregs.IF 0x10
  some { s with mmu := mmu }

/-- C4 fixture: reset state with IE = IF = 0x02 (STAT requested, enabled). -/
def c4HaltState : Option State := do
  let s ← initState
  let mmu ← s.mmu.write ioregs.IE 0x02
  let mmu ← mmu.write ioregs.IF 0x02
  some { s with mmu := mmu }

/-- C6 fixture: MMU over a fresh MBC1 on the banked ROM. -/
def c6MMU : MMU := MMU.new zeroBytes bankedMBC1

/-- C8 fixture: reset-state MMU with channel 4 enabled (NR52 = 0x08), no
trigger pending (NR44 = 0) and NR43 = 0 (long LFSR mode, divisor code 0). -/
def c8MMU : MMU :=
  (do
    let s ← initState
    let mmu ← s.mmu.write ioregs.NR_52 0x08
    let mmu ← mmu.write ioregs.NR_44 0x00
    let mmu ← mmu.write ioregs.NR_43 0x00
    some mmu).getD (MMU.new zeroBytes (MBC1.new zeroBytes))

/-- C8 fixture: noise channel about to clock its LFSR, with only bit 0 set. -/
def c8Chan : NoiseChannel :=
  { volume := 5, length := 0, envelope_count := 0, timer := 1,
    sample_counter := 0, lsfr := fun i => i == 0, buff := [] }

/-- C8 fixture: the result of one tick of `c8Chan` over `c8MMU`. -/
def c8Tick : NoiseChannel × MMU := (c8Chan.tick c8MMU).getD (c8Chan, c8MMU)

/-- The four 16-bit register pairs reachable by PUSH/POP (C9). -/
inductive StackPair
  | BC
  | DE
  | HL
  | AF

/-- Dispatch to the PUSH handler of a pair (opcodes 0xC5/0xD5/0xE5/0xF5). -/
def pushHandler : StackPair → CPU → State → Option (CPU × State × Nat)
  | StackPair.BC => op_PUSH_BC
  | StackPair.DE => op_PUSH_DE
  | StackPair.HL => op_PUSH_HL
  | StackPair.AF => op_PUSH_AF

/-- Dispatch to the POP handler of a pair (opcodes 0xC1/0xD1/0xE1/0xF1). -/
def popHandler : StackPair → CPU → State → Option (CPU × State × Nat)
  | StackPair.BC => op_POP_BC
  | StackPair.DE => op_POP_DE
  | StackPair.HL => op_POP_HL
  | StackPair.AF => op_POP_AF

/-- The property "PUSH rr ; POP rr restored the pair" (for AF: A and the four
flags, the F low nibble being structurally zero). -/
def pairRestored (rr : StackPair) (c c2 : CPU) : Prop :=
  match rr with
  | StackPair.BC => c2.BC = c.BC
  | StackPair.DE => c2.DE = c.DE
  | StackPair.HL => c2.HL = c.HL
  | StackPair.AF => c2.A = c.A ∧ c2.Z = c.Z ∧ c2.N = c.N ∧ c2.H = c.H ∧ c2.C = c.C

/-- C9 fixture: a CPU whose stack pointer sits in work RAM. -/
def c9CPU : CPU := { CPU.new with SP := 0xD000 }

/-- Work RAM after the two bytes of `w` are stored at `sp` and `sp + 1`
(named to keep proof terms small). -/
def stackedRam (r : Nat → Nat) (sp w : Nat) : Nat → Nat :=
  upd (upd r (sp - 0xC000) (w &&& 0xFF)) (sp + 1 - 0xC000) ((w >>> 8) &&& 0xFF)

/-- The state after `CPU::push_u16` has stored the two bytes of `w` at
`sp` and `sp + 1` in work RAM. -/
def stackedState (s : State) (sp w : Nat) : State :=
  { s with mmu := { s.mmu with ram := stackedRam s.mmu.ram sp w } }

/-- C3 fixture: the components of `c3Start`, and of the step taken from it
(defaults only destructure the options; `c3Start` and the step are `some`). -/
def c3GPU : GPU := (c3Start.map Prod.fst).getD dummyState.gpu

def c3MMU : MMU := (c3Start.map Prod.snd).getD dummyState.mmu

def c3Step : Option (GPU × MMU) := c3GPU.step c3MMU

def c3GPU2 : GPU := (c3Step.map Prod.fst).getD dummyState.gpu

def c3MMU2 : MMU := (c3Step.map Prod.snd).getD dummyState.mmu

/- ===== Helper lemmas ===== -/

theorem upd_apply_same {α : Type} (f : Nat → α) (i : Nat) (v : α) : upd f i v i = v := by
  simp [upd]

theorem upd_apply_ne {α : Type} (f : Nat → α) (i : Nat) (v : α) {j : Nat} (h : j ≠ i) :
    upd f i v j = f j := by
  simp [upd, h]

theorem nat_and_255 (x : Nat) : x &&& 255 = x % 256 := by
  have h := Nat.and_pow_two_sub_one_eq_mod x 8
  norm_num at h
  exact h

/-- Reading any I/O-register address (0xFF00–0xFF7F or 0xFFFF) is the plain
register byte. -/
theorem MMU.read_LCDC (m : MMU) : m.read ioregs.LCDC = some (m.ioregs 0x40) := rfl
theorem MMU.read_STAT (m : MMU) : m.read ioregs.STAT = some (m.ioregs 0x41) := rfl
theorem MMU.read_LY (m : MMU) : m.read ioregs.LY = some (m.ioregs 0x44) := rfl
theorem MMU.read_LYC (m : MMU) : m.read ioregs.LYC = some (m.ioregs 0x45) := rfl
theorem MMU.read_IF (m : MMU) : m.read ioregs.IF = some (m.ioregs 0x0F) := rfl

theorem MMU.write_STAT (m : MMU) (v : Nat) :
    m.write ioregs.STAT v = some { m with ioregs := upd m.ioregs 0x41 v } := rfl
theorem MMU.write_LY (m : MMU) (v : Nat) :
    m.write ioregs.LY v = some { m with ioregs := upd m.ioregs 0x44 v } := rfl
theorem MMU.write_IF (m : MMU) (v : Nat) :
    m.write ioregs.IF v = some { m with ioregs := upd m.ioregs 0x0F v } := rfl

/- ===== C1 ===== -/

/-- C1: a write of V to 0xFF46 must copy exactly 160 bytes from V<<8 into OAM
in a 160-cycle transfer.  Evaluating the code at V = 0xC0 over RAM holding
`(i+1) % 256`: the step does start a transfer, but `TRANSFER_SIZE = 140`, so
OAM byte 139 receives source byte 139 (value 140) while OAM byte 150 stays 0
even though the source byte at offset 150 is 151, and `next_time` reports 162
cycles, not 160. -/
theorem C1_dma_eval :
    (dmaStarted.bind fun s =>
      (DMA.step s.dma s.mmu).map fun q =>
        (s.dma.active, q.2.oam 139, q.2.oam 150, q.2.ram 150, DMA.next_time s.dma))
      = some (true, 140, 0, 151, 162) ∧ TRANSFER_SIZE = 140 := by
  constructor
  · decide
  · rfl

/- ===== C4 ===== -/

/-- C4: with STOP set, IME set, and the joypad interrupt both enabled and
requested (IE = IF = 0x10), `CPU::interrupts` must (per the claim and the
source's own comment) clear STOP and dispatch to 0x60.  Evaluating the code:
the scan `break`s at bit 0 because `bit != JOYPAD_INT`, so it returns 0
cycles, STOP stays set, IME stays set, PC does not move and IF keeps 0x10.
The HALT half of the claim does hold: with IME, IE = IF = 0x02 and HALT set,
one check clears HALT and IME and sets PC = 0x0048 in 5 cycles, clearing the
IF bit. -/
theorem C4_interrupts_eval :
    ((c4StopState.bind fun s =>
        (CPU.interrupts { CPU.new with STOP := true, IME := true } s).bind fun r =>
          (r.2.1.mmu.read ioregs.IF).map fun ifb =>
            (r.1.STOP, r.1.IME, r.1.PC, r.2.2, ifb))
      = some (true, true, 0x0000, 0, 0x10)) ∧
    ((c4HaltState.bind fun s =>
        (CPU.interrupts { CPU.new with HALT := true, PC := 0x1234 } s).bind fun r =>
          (r.2.1.mmu.read ioregs.IF).map fun ifb =>
            (r.1.HALT, r.1.IME, r.1.PC, r.2.2, ifb))
      = some (false, false, 0x0048, 5, 0x00)) := by
  constructor
  · decide
  · decide

/- ===== C5 ===== -/

/-- C5: starting from reset, the claim says 300 timer steps leave DIV = 4.
Evaluating the code: `Timer::step` increments DIV whenever `div_cycle % 64 = 0`
*before* the accumulator advances, so DIV rises on steps 1, 65, 129, 193 and
257 — after 300 steps DIV reads 5 (the repo's own `tests/timertest.rs`
expects 4 here).  The remainder of the claim does hold: a write to 0xFF04
clears DIV and the accumulator, and 64 further steps leave DIV = 1. -/
theorem C5_div_eval :
    ((do
        let s ← initState
        let (t, m) ← iterOpt timerStepP 300 (s.timer, s.mmu)
        let d300 ← m.read ioregs.DIV
        let s := { s with timer := t, mmu := m }
        let s ← s.safe_write ioregs.DIV 0x69
        let d0 ← s.mmu.read ioregs.DIV
        let acc := s.timer.div_cycle
        let (_, m2) ← iterOpt timerStepP 64 (s.timer, s.mmu)
        let d64 ← m2.read ioregs.DIV
        some (d300, d0, acc, d64)) : Option (Nat × Nat × Nat × Nat))
      = some (5, 0, 0, 1) := by
  decide

/- ===== C7 ===== -/

/-- C7: in the reset state the PPU mode is OAM_SEARCH, so the claim (and the
repo's own `tests/gputest.rs`) requires reads of OAM and VRAM to return 0xFF
and writes to be dropped.  Evaluating the code: `State::safe_read` forwards
straight to `MMU::read` (the `is_addr_allowed` predicate — which would indeed
forbid these accesses — is never consulted), so the reads return the stored
0x00 and a write of 0xAB to 0xFE00 lands and reads back. -/
theorem C7_restricted_access_eval :
    (initState.bind fun s => do
        let md ← GPU.MODE s.mmu
        let allowedOam ← s.is_addr_allowed OAM_ADDR
        let allowedVram ← s.is_addr_allowed VRAM_ADDR
        let b ← s.safe_read OAM_ADDR
        let v ← s.safe_read VRAM_ADDR
        let s2 ← s.safe_write OAM_ADDR 0xAB
        let b2 ← s2.safe_read OAM_ADDR
        some (decide (md = GPUMode.OAM_SEARCH), allowedOam, allowedVram, b, v, b2))
      = some (true, false, false, 0x00, 0x00, 0xAB) := by
  decide

/- ===== C10 ===== -/

/-- C10: the claim requires `MMU::read`/`MMU::write` to be total on the
unmapped gap 0xFEA0–0xFEFF.  Evaluating the code at the reset state: the
chunked match routes 0xFEA0 and 0xFEFF to the OAM handler with offsets
0xA0 and 0xFF, which index the 0xA0-byte `oam` vector out of bounds — a
panic (`none`) — while the last in-range address 0xFE9F still reads fine. -/
theorem C10_oam_gap_eval :
    (initState.bind fun s => s.mmu.read 0xFEA0) = none ∧
    (initState.bind fun s => s.mmu.read 0xFEFF) = none ∧
    ((initState.bind fun s => s.mmu.write 0xFEA0 0x00).map fun _ => 0) = none ∧
    (initState.bind fun s => s.mmu.read 0xFE9F) = some 0x00 := by
  refine ⟨by decide, by decide, by decide, by decide⟩

/- ===== C2: counterexample ===== -/

/-- C2 counterexample: the claim says a CPU write to any A in 0x0000–0x7FFF
never alters the byte subsequently readable at A.  Take the reachable MBC1
state with bank index 0x21 (control writes 0x01→0x4000, 0x01→0x2000) over a
ROM whose bytes name their bank: the byte at 0x6000 reads 0x21, but after the
CPU write of 1 to 0x6000 (RAM banking mode) the same address reads 0x01. -/
theorem C2_counterexample :
    c2MMU.read 0x6000 = some 0x21 ∧
    (c2MMU.write 0x6000 1).bind (fun m => m.read 0x6000) = some 0x01 ∧
    ¬((c2MMU.write 0x6000 1).bind (fun m => m.read 0x6000) = some 0x21) := by
  refine ⟨by decide, by decide, by decide⟩

/- ===== C3: counterexample ===== -/

/-- C3 counterexample: with LCDC bit 7 clear (LCD disabled), mode OAM_SEARCH
and the internal line counter at 5, one `GPU::step` still performs the mode
transition to LCD_TRANSFER and LY reads 5 — refuting "LY reads 0, the mode
stays HBLANK, and no mode transitions or LY increments occur". -/
theorem C3_counterexample :
    (c3Start.bind fun p => do
        let en ← GPU.LCD_DISPLAY_ENABLE p.2
        let md0 ← GPU.MODE p.2
        let (_, m2) ← p.1.step p.2
        let md ← GPU.MODE m2
        let lyv ← m2.read ioregs.LY
        some (en, decide (md0 = GPUMode.OAM_SEARCH), decide (md = GPUMode.LCD_TRANSFER), lyv))
      = some (false, true, true, 5) := by
  decide

/- ===== C6: counterexample ===== -/

/-- C6 counterexample: on a fresh MBC1 (bank index 1, upper bits clear) the
claim says writing 0x20 to the 0x2000–0x3FFF window makes the switchable
window show bank 0x21.  Evaluating the code: only the low 5 bits of the
written value are taken, so the index becomes 1 and 0x4000 reads bank 1's
byte (0x01), not bank 0x21's (0x21). -/
theorem C6_counterexample :
    (c6MMU.write 0x2000 0x20).bind (fun m => m.read 0x4000) = some 0x01 ∧
    ¬((c6MMU.write 0x2000 0x20).bind (fun m => m.read 0x4000) = some 0x21) ∧
    (bankedMBC1.on_status 0x2000 0x20).idx = 0x01 := by
  refine ⟨by decide, by decide, by decide⟩

/- ===== C8: counterexample ===== -/

/-- C8 counterexample: the claim says the register is 15 bits wide and the
feedback bit enters at position 14.  Take the enabled channel with only
`lsfr[0]` set and `timer = 1` in long mode: the feedback bit
`lsfr[0] XOR lsfr[1] = true` lands at position 15 of the 16-cell register,
while position 14 receives the shifted old bit 15 (`false`). -/
theorem C8_counterexample :
    (c8Chan.tick c8MMU).map (fun p => (p.1.lsfr 14, p.1.lsfr 15, p.1.lsfr 0))
      = some (false, true, false) ∧ NOISE_LSFR_SIZE = 16 := by
  refine ⟨by decide, rfl⟩

/- ===== C9: counterexample ===== -/

/-- C9 counterexample: the claim quantifies over every CPU state.  With
SP = 0x0202 the pushed bytes land in the ROM region, where the MMU drops
them (mapper control decodes them as a RAM-enable write), and POP then reads
the ROM bytes 0x00 — so PUSH BC; POP BC turns BC = 0x1234 into 0x0000 even
though SP returns to 0x0202. -/
theorem C9_counterexample :
    (initState.bind fun s =>
      (op_PUSH_BC { CPU.new with BC := 0x1234, SP := 0x0202 } s).bind fun r =>
      (op_POP_BC r.1 r.2.1).map fun r2 => (r2.1.BC, r2.1.SP))
      = some (0x0000, 0x0202) ∧ (0x0000 : Nat) ≠ 0x1234 := by
  refine ⟨by decide, by decide⟩

/- ===== C2: amended ===== -/

theorem MBC1.on_status_rom (m : MBC1) (a : Nat) (v : Nat) :
    (m.on_status a v).rom = m.rom := by
  unfold MBC1.on_status
  repeat' split
  all_goals rfl

theorem MBC1.on_status_ram (m : MBC1) (a : Nat) (v : Nat) :
    (m.on_status a v).ram = m.ram := by
  unfold MBC1.on_status
  repeat' split
  all_goals rfl

/-- C2 (amended): a CPU write to 0x0000–0x7FFF never mutates any backing
storage — the ROM image, cart RAM, VRAM, OAM, work RAM, high RAM and the
I/O register file are all unchanged; the write is interpreted only as mapper
control (which may, however, change which ROM bank is visible, so the byte
subsequently readable at the written address can differ — see the
counterexample). -/
theorem C2_mapper_control_only (m : MMU) (a : Nat) (v : Nat) (m' : MMU)
    (ha : a ≤ 0x7FFF) (hw : m.write a v = some m') :
    m'.mapper.rom = m.mapper.rom ∧ m'.mapper.ram = m.mapper.ram ∧
      m'.vram = m.vram ∧ m'.oam = m.oam ∧
      m'.ram = m.ram ∧ m'.hram = m.hram ∧ m'.ioregs = m.ioregs := by
  by_cases hb : a < BOOSTRAP_SIZE ∧ m.ioregs (ioregs.BOOT - IO_REGS_ADDR) = 0x00
  · simp only [MMU.write, if_pos hb] at hw
    exact absurd hw (by simp)
  · by_cases h3 : a ≤ 0x3FFF
    · rcases hat : m.mapper.get_addr_type a with _ | _ <;>
        simp only [MMU.write, if_neg hb, if_pos h3, hat, Option.some.injEq] at hw <;>
        subst hw
      · exact ⟨MBC1.on_status_rom .., MBC1.on_status_ram .., rfl, rfl, rfl, rfl, rfl⟩
      · exact ⟨rfl, rfl, rfl, rfl, rfl, rfl, rfl⟩
    · have h7 : a ≤ 0x7FFF := ha
      rcases hat : m.mapper.get_addr_type a with _ | _ <;>
        simp only [MMU.write, if_neg hb, if_neg h3, if_pos h7, hat, Option.some.injEq] at hw <;>
        subst hw
      · exact ⟨MBC1.on_status_rom .., MBC1.on_status_ram .., rfl, rfl, rfl, rfl, rfl⟩
      · exact ⟨rfl, rfl, rfl, rfl, rfl, rfl, rfl⟩

/-- Witness: `C2_mapper_control_only` at the concrete mode-switch write of the
counterexample. -/
theorem C2_mapper_control_only_witness :
    (0x6000 : Nat) ≤ 0x7FFF ∧ c2MMU.write 0x6000 1 = some c2Written ∧
      (c2Written.mapper.rom = c2MMU.mapper.rom ∧ c2Written.mapper.ram = c2MMU.mapper.ram ∧
        c2Written.vram = c2MMU.vram ∧ c2Written.oam = c2MMU.oam ∧
        c2Written.ram = c2MMU.ram ∧ c2Written.hram = c2MMU.hram ∧
        c2Written.ioregs = c2MMU.ioregs) :=
  ⟨by decide, rfl, C2_mapper_control_only c2MMU 0x6000 1 c2Written (by decide) rfl⟩

/-- C6 (amended): writing any of 0x00, 0x20, 0x40, 0x60 to the 0x2000–0x3FFF
control window zeroes the low 5 bits of the bank index (the written value's
bits 5–6 are ignored), and the zero low bits are then forced to 1: the index
becomes `(old index &&& 0xE0) + 1`, and in ROM banking mode the switchable
window shows that bank — 0x01, 0x21, 0x41 or 0x61 according to the
previously latched upper bank bits, not the written value. -/
theorem C6_low_bits_forced (m : MBC1) (a : Nat) (v : Nat)
    (hrange : 0x2000 ≤ a ∧ a ≤ 0x3FFF)
    (hv : v = 0x00 ∨ v = 0x20 ∨ v = 0x40 ∨ v = 0x60) :
    (m.on_status a v).idx = (m.idx &&& 0xE0) + 1 ∧
    (m.on_status a v).banking_mode = m.banking_mode ∧
    (m.banking_mode = mbc1.ROM_MODE →
      (m.on_status a v).switchable_rom_start =
        (((m.idx &&& 0xE0) + 1) &&& 0x7F) * ROM_BANK_SIZE) := by
  obtain ⟨h1, h2⟩ := hrange
  have hno1 : ¬(a < 0x2000) := by omega
  have hyes : 0x2000 ≤ a ∧ a < 0x4000 := by omega
  have hno3 : ¬(0x4000 ≤ a ∧ a < 0x6000) := by omega
  have hno4 : ¬(0x6000 ≤ a ∧ a < 0x8000) := by omega
  have hv31 : v &&& 0b00011111 = 0 := by
    rcases hv with rfl | rfl | rfl | rfl <;> decide
  have hzero : (m.idx &&& 0b11100000) &&& 0x1F = 0 := by
    rw [Nat.and_assoc]
    have h : (0b11100000 &&& 0x1F : Nat) = 0 := by decide
    rw [h, Nat.and_zero]
  have hidx : (m.on_status a v).idx = (m.idx &&& 0xE0) + 1 := by
    unfold MBC1.on_status
    simp only [if_neg hno1, if_pos hyes, if_neg hno3, if_neg hno4,
      hv31, Nat.zero_or, hzero, if_pos]
  have hmode : (m.on_status a v).banking_mode = m.banking_mode := by
    unfold MBC1.on_status
    simp only [if_neg hno1, if_pos hyes, if_neg hno3, if_neg hno4]
  refine ⟨hidx, hmode, fun hrm => ?_⟩
  unfold MBC1.switchable_rom_start
  rw [hmode, hidx, if_pos hrm]

/-- Witness: `C6_low_bits_forced` at the fresh mapper and the write of 0x20. -/
theorem C6_low_bits_forced_witness :
    ((0x2000 : Nat) ≤ 0x2000 ∧ (0x2000 : Nat) ≤ 0x3FFF) ∧
    ((0x20 : Nat) = 0x00 ∨ (0x20 : Nat) = 0x20 ∨ (0x20 : Nat) = 0x40 ∨ (0x20 : Nat) = 0x60) ∧
    ((bankedMBC1.on_status 0x2000 0x20).idx = (bankedMBC1.idx &&& 0xE0) + 1 ∧
      (bankedMBC1.on_status 0x2000 0x20).banking_mode = bankedMBC1.banking_mode ∧
      (bankedMBC1.banking_mode = mbc1.ROM_MODE →
        (bankedMBC1.on_status 0x2000 0x20).switchable_rom_start =
          (((bankedMBC1.idx &&& 0xE0) + 1) &&& 0x7F) * ROM_BANK_SIZE)) :=
  ⟨by decide, by decide,
    C6_low_bits_forced bankedMBC1 0x2000 0x20 (by decide) (by decide)⟩

theorem MMU.read_NR43 (m : MMU) : m.read ioregs.NR_43 = some (m.ioregs 0x22) := rfl
theorem MMU.read_NR44 (m : MMU) : m.read ioregs.NR_44 = some (m.ioregs 0x23) := rfl
theorem MMU.read_NR52 (m : MMU) : m.read ioregs.NR_52 = some (m.ioregs 0x26) := rfl

theorem shift_lsfr_long_lt (ls : Nat → Bool) (i : Nat) (hi : i < 15) :
    NoiseChannel.shift_lsfr ls false i = ls (i + 1) := by
  unfold NoiseChannel.shift_lsfr NOISE_LSFR_SIZE
  norm_num
  rw [if_neg (by omega), if_pos (by omega)]

theorem shift_lsfr_long_top (ls : Nat → Bool) :
    NoiseChannel.shift_lsfr ls false 15 = (ls 1 != ls 0) := by
  unfold NoiseChannel.shift_lsfr NOISE_LSFR_SIZE
  simp

theorem shift_lsfr_short_lt (ls : Nat → Bool) (i : Nat) (hi : i < 15) (h7 : i ≠ 7) :
    NoiseChannel.shift_lsfr ls true i = ls (i + 1) := by
  unfold NoiseChannel.shift_lsfr NOISE_LSFR_SIZE
  norm_num
  rw [if_neg h7, if_pos (by omega)]

theorem shift_lsfr_short_7 (ls : Nat → Bool) :
    NoiseChannel.shift_lsfr ls true 7 = (ls 1 != ls 0) := by
  unfold NoiseChannel.shift_lsfr NOISE_LSFR_SIZE
  simp

theorem shift_lsfr_short_top (ls : Nat → Bool) :
    NoiseChannel.shift_lsfr ls true 15 = ls 15 := by
  unfold NoiseChannel.shift_lsfr NOISE_LSFR_SIZE
  simp

/-- C8 (amended): the noise channel's shift register is 16 cells wide.  When
the channel is enabled, no trigger is pending and the timer expires on this
tick, the register shifts one place down, the feedback bit
`lfsr[0] XOR lfsr[1]` enters at position 15 (or position 7 when the
short-mode flag of NR43 is set, position 15 then keeping its stale value),
and the sample appended on a sample-rate tick is the complement of bit 0
scaled by `(i16::MAX / 15) ×` the current volume. -/
theorem C8_lsfr_16bit (c : NoiseChannel) (m : MMU)
    (hinit : NoiseChannel.INITIAL m = some false)
    (hen : NoiseChannel.ENABLED m = some true)
    (htimer : c.timer ≤ 1)
    (c' : NoiseChannel) (m' : MMU)
    (h : c.tick m = some (c', m')) :
    (NoiseChannel.LSFR_7BIT m = some false →
      (∀ i, i < 15 → c'.lsfr i = c.lsfr (i + 1)) ∧
      c'.lsfr 15 = (c.lsfr 1 != c.lsfr 0)) ∧
    (NoiseChannel.LSFR_7BIT m = some true →
      (∀ i, i < 15 → i ≠ 7 → c'.lsfr i = c.lsfr (i + 1)) ∧
      c'.lsfr 7 = (c.lsfr 1 != c.lsfr 0) ∧ c'.lsfr 15 = c.lsfr 15) ∧
    c'.volume = c.volume ∧
    (c.sample_counter + 1 = SAMPLE_APPEND_RATE →
      c'.buff = c.buff ++ [if ¬c'.lsfr 0 then (32767 / 15) * (c.volume : Int) else 0]) := by
  have hb : NoiseChannel.LSFR_7BIT m = some ((m.ioregs 0x22 &&& 8) != 0) := rfl
  obtain ⟨vol, len, env, tmr, sc, ls, bf⟩ := c
  simp only at htimer h ⊢
  rcases Nat.le_one_iff_eq_zero_or_eq_one.mp htimer with h0 | h0 <;> subst h0 <;>
    by_cases hs : sc + 1 = SAMPLE_APPEND_RATE <;>
      simp [NoiseChannel.tick, hinit, hen, NoiseChannel.LSFR_7BIT,
        NoiseChannel.FREQ_RATIO, NoiseChannel.FREQ_SHIFT_CLOCK, MMU.read_bit,
        MMU.read_NR43, hs, Prod.ext_iff] at h <;>
    obtain ⟨h1, h2⟩ := h <;> subst h1 <;> subst h2 <;>
    refine ⟨fun hf => ?_, fun hf => ?_, rfl, fun hsc => ?_⟩
  all_goals
    try (rw [hb] at hf;
         simp only [Option.some.injEq] at hf)
  all_goals first
    | exact absurd hsc hs
    | (rw [hf]
       exact ⟨fun i hi => shift_lsfr_long_lt ls i hi, shift_lsfr_long_top ls⟩)
    | (rw [hf]
       exact ⟨fun i hi h7 => shift_lsfr_short_lt ls i hi h7,
         shift_lsfr_short_7 ls, shift_lsfr_short_top ls⟩)
    | rfl
    | simp

/-- Witness: `C8_lsfr_16bit` at the concrete channel of the counterexample. -/
theorem C8_lsfr_16bit_witness :
    NoiseChannel.INITIAL c8MMU = some false ∧
    NoiseChannel.ENABLED c8MMU = some true ∧
    c8Chan.timer ≤ 1 ∧
    c8Chan.tick c8MMU = some (c8Tick.1, c8Tick.2) ∧
    ((NoiseChannel.LSFR_7BIT c8MMU = some false →
        (∀ i, i < 15 → c8Tick.1.lsfr i = c8Chan.lsfr (i + 1)) ∧
        c8Tick.1.lsfr 15 = (c8Chan.lsfr 1 != c8Chan.lsfr 0)) ∧
      (NoiseChannel.LSFR_7BIT c8MMU = some true →
        (∀ i, i < 15 → i ≠ 7 → c8Tick.1.lsfr i = c8Chan.lsfr (i + 1)) ∧
        c8Tick.1.lsfr 7 = (c8Chan.lsfr 1 != c8Chan.lsfr 0) ∧
        c8Tick.1.lsfr 15 = c8Chan.lsfr 15) ∧
      c8Tick.1.volume = c8Chan.volume ∧
      (c8Chan.sample_counter + 1 = SAMPLE_APPEND_RATE →
        c8Tick.1.buff = c8Chan.buff ++
          [if ¬c8Tick.1.lsfr 0 then (32767 / 15) * (c8Chan.volume : Int) else 0])) :=
  ⟨by decide, by decide, by decide, rfl,
    C8_lsfr_16bit c8Chan c8MMU (by decide) (by decide) (by decide)
      c8Tick.1 c8Tick.2 rfl⟩

theorem MMU.write_ram (m : MMU) (a v : Nat) (h1 : 0xC000 ≤ a) (h2 : a ≤ 0xDFFF) :
    m.write a v = some { m with ram := upd m.ram (a - 0xC000) v } := by
  unfold MMU.write
  rw [if_neg (fun hc => by simp only [BOOSTRAP_SIZE] at hc; omega)]
  rw [if_neg (by omega), if_neg (by omega), if_neg (by omega), if_neg (by omega)]
  rw [if_pos h2]
  rw [if_pos (by simp only [RAM_BASE_ADDR, RAM_BANK_SIZE]; omega)]
  rfl

theorem MMU.read_ram (m : MMU) (a : Nat) (h1 : 0xC000 ≤ a) (h2 : a ≤ 0xDFFF) :
    m.read a = some (m.ram (a - 0xC000)) := by
  unfold MMU.read
  rw [if_neg (fun hc => by simp only [BOOSTRAP_SIZE] at hc; omega)]
  rw [if_neg (by omega), if_neg (by omega), if_neg (by omega), if_neg (by omega)]
  rw [if_pos h2]
  rw [if_pos (by simp only [RAM_BASE_ADDR, RAM_BANK_SIZE]; omega)]
  rfl

theorem State.safe_write_ram (s : State) (a v : Nat) (h1 : 0xC000 ≤ a) (h2 : a ≤ 0xDFFF) :
    s.safe_write a v =
      some { s with mmu := { s.mmu with ram := upd s.mmu.ram (a - 0xC000) v } } := by
  unfold State.safe_write
  rw [MMU.write_ram s.mmu a v h1 h2]
  simp only [Option.bind_eq_bind, Option.some_bind]
  rw [if_neg (by simp only [ioregs.LYC]; omega), if_neg (by simp only [ioregs.DIV]; omega),
    if_neg (by simp only [ioregs.TIMA]; omega), if_neg (by simp only [ioregs.DMA]; omega)]

theorem State.safe_read_ram (s : State) (a : Nat) (h1 : 0xC000 ≤ a) (h2 : a ≤ 0xDFFF) :
    s.safe_read a = some (s.mmu.ram (a - 0xC000)) :=
  MMU.read_ram s.mmu a h1 h2

theorem word_round (w : Nat) (hw : w < 0x10000) :
    (w &&& 0xFF) + (((w >>> 8) &&& 0xFF) <<< 8) = w := by
  rw [nat_and_255, nat_and_255, Nat.shiftRight_eq_div_pow, Nat.shiftLeft_eq]
  norm_num
  omega

theorem pop_u16_ram (c1 : CPU) (s1 : State) (w : Nat)
    (hsp1 : 0xC000 ≤ c1.SP) (hsp2 : c1.SP ≤ 0xDFFE) (hw : w < 0x10000)
    (hlo : s1.mmu.ram (c1.SP - 0xC000) = w &&& 0xFF)
    (hhi : s1.mmu.ram (c1.SP + 1 - 0xC000) = (w >>> 8) &&& 0xFF) :
    c1.pop_u16 s1 = some ({ c1 with SP := safe_w_add c1.SP 2 }, s1, w) := by
  have hmod : (c1.SP + 1) % 0x10000 = c1.SP + 1 := by omega
  unfold CPU.pop_u16
  unfold State.read_word
  rw [State.safe_read_ram _ _ (by omega) (by omega), hlo]
  simp only [Option.bind_eq_bind, Option.some_bind]
  rw [hmod, State.safe_read_ram _ _ (by omega) (by omega), hhi]
  simp only [Option.bind_eq_bind, Option.some_bind]
  rw [word_round w hw]

theorem stackedState_ram (s : State) (sp w : Nat) :
    (stackedState s sp w).mmu.ram = stackedRam s.mmu.ram sp w := rfl

theorem stackedState_lo (s : State) (sp w : Nat) (h : 0xC000 ≤ sp) :
    (stackedState s sp w).mmu.ram (sp - 0xC000) = w &&& 0xFF := by
  rw [stackedState_ram]
  unfold stackedRam
  rw [upd_apply_ne _ _ _ (show sp - 0xC000 ≠ sp + 1 - 0xC000 by omega), upd_apply_same]

theorem stackedState_hi (s : State) (sp w : Nat) :
    (stackedState s sp w).mmu.ram (sp + 1 - 0xC000) = (w >>> 8) &&& 0xFF := by
  rw [stackedState_ram]
  unfold stackedRam
  rw [upd_apply_same]

theorem push_pop_u16 (c : CPU) (s : State) (w : Nat)
    (hsp1 : 0xC002 ≤ c.SP) (hsp2 : c.SP ≤ 0xE000) (hw : w < 0x10000) :
    c.push_u16 s w = some ({ c with SP := c.SP - 2 }, stackedState s (c.SP - 2) w) ∧
      CPU.pop_u16 { c with SP := c.SP - 2 } (stackedState s (c.SP - 2) w)
        = some ({ c with SP := c.SP }, stackedState s (c.SP - 2) w, w) := by
  have hsub : safe_w_sub c.SP 2 = c.SP - 2 := by unfold safe_w_sub; omega
  have hmod : (c.SP - 2 + 1) % 0x10000 = c.SP - 1 := by omega
  have hadd : safe_w_add (c.SP - 2) 2 = c.SP := by unfold safe_w_add; omega
  constructor
  · unfold CPU.push_u16
    rw [hsub]
    unfold State.write_word
    dsimp only
    rw [State.safe_write_ram _ _ _ (by omega) (by omega)]
    simp only [Option.bind_eq_bind, Option.some_bind]
    rw [hmod, State.safe_write_ram _ _ _ (by omega) (by omega)]
    unfold stackedState stackedRam
    rw [show (c.SP - 2 + 1) = c.SP - 1 by omega]
    rfl
  · have h := pop_u16_ram { c with SP := c.SP - 2 } (stackedState s (c.SP - 2) w) w
      (show 0xC000 ≤ c.SP - 2 by omega) (show c.SP - 2 ≤ 0xDFFE by omega) hw
      (stackedState_lo s (c.SP - 2) w (by omega))
      (stackedState_hi s (c.SP - 2) w)
    rw [h]
    dsimp only
    rw [hadd]

theorem CPU.F_lt (c : CPU) : c.F < 0x100 := by
  unfold CPU.F
  cases c.Z <;> cases c.N <;> cases c.H <;> cases c.C <;> decide

theorem word_lt (a f : Nat) (ha : a < 0x100) (hf : f < 0x100) : word a f < 0x10000 := by
  unfold word
  rw [Nat.shiftLeft_eq]
  norm_num
  omega

theorem word_split_word (a f : Nat) (ha : a < 0x100) (hf : f < 0x100) :
    word_split (word a f) = (a, f) := by
  unfold word word_split
  rw [Nat.shiftLeft_eq, Nat.shiftRight_eq_div_pow, nat_and_255, nat_and_255]
  norm_num
  constructor
  · omega
  · omega

theorem CPU.set_F_F (d c : CPU) :
    (d.set_F c.F).Z = c.Z ∧ (d.set_F c.F).N = c.N ∧
    (d.set_F c.F).H = c.H ∧ (d.set_F c.F).C = c.C := by
  unfold CPU.set_F CPU.F
  cases c.Z <;> cases c.N <;> cases c.H <;> cases c.C <;>
    exact ⟨rfl, rfl, rfl, rfl⟩

/-- C9 (amended): provided the two stack bytes SP−2 and SP−1 lie in work RAM
(0xC000–0xDFFF), executing the PUSH rr handler followed by the POP rr handler
restores rr to its original value and leaves SP unchanged; for AF the
restored state has A and all four flag booleans equal to the originals (the
F byte low nibble is structurally zero on both sides). -/
theorem C9_push_pop_identity (rr : StackPair) (c : CPU) (s : State)
    (hsp1 : 0xC002 ≤ c.SP) (hsp2 : c.SP ≤ 0xE000)
    (hbc : c.BC < 0x10000) (hde : c.DE < 0x10000) (hhl : c.HL < 0x10000)
    (ha : c.A < 0x100) :
    ∃ c2, ((pushHandler rr c s).bind fun r => (popHandler rr r.1 r.2.1).map fun r2 => r2.1)
        = some c2 ∧ c2.SP = c.SP ∧ pairRestored rr c c2 := by
  cases rr
  case BC =>
    obtain ⟨hpush, hpop⟩ := push_pop_u16 c s c.BC hsp1 hsp2 hbc
    refine ⟨_, ?_, rfl, rfl⟩
    unfold pushHandler popHandler op_PUSH_BC op_POP_BC
    dsimp only
    rw [hpush]
    simp only [Option.bind_eq_bind, Option.some_bind]
    rw [hpop]
    simp only [Option.bind_eq_bind, Option.some_bind, Option.map_some]
    rfl
  case DE =>
    obtain ⟨hpush, hpop⟩ := push_pop_u16 c s c.DE hsp1 hsp2 hde
    refine ⟨_, ?_, rfl, rfl⟩
    unfold pushHandler popHandler op_PUSH_DE op_POP_DE
    dsimp only
    rw [hpush]
    simp only [Option.bind_eq_bind, Option.some_bind]
    rw [hpop]
    simp only [Option.bind_eq_bind, Option.some_bind, Option.map_some]
    rfl
  case HL =>
    obtain ⟨hpush, hpop⟩ := push_pop_u16 c s c.HL hsp1 hsp2 hhl
    refine ⟨_, ?_, rfl, rfl⟩
    unfold pushHandler popHandler op_PUSH_HL op_POP_HL
    dsimp only
    rw [hpush]
    simp only [Option.bind_eq_bind, Option.some_bind]
    rw [hpop]
    simp only [Option.bind_eq_bind, Option.some_bind, Option.map_some]
    rfl
  case AF =>
    obtain ⟨hpush, hpop⟩ := push_pop_u16 c s (word c.A c.F) hsp1 hsp2
      (word_lt c.A c.F ha (CPU.F_lt c))
    refine ⟨{ c.set_F c.F with A := c.A }, ?_, ?_, ?_⟩
    · unfold pushHandler popHandler op_PUSH_AF op_POP_AF
      dsimp only
      rw [hpush]
      simp only [Option.bind_eq_bind, Option.some_bind]
      rw [hpop]
      simp only [Option.bind_eq_bind, Option.some_bind, Option.map_some]
      rw [word_split_word c.A c.F ha (CPU.F_lt c)]
      rfl
    · rfl
    · exact ⟨rfl, (CPU.set_F_F c c).1, (CPU.set_F_F c c).2.1,
        (CPU.set_F_F c c).2.2.1, (CPU.set_F_F c c).2.2.2⟩

theorem C9_push_pop_identity_witness :
    (0xC002 ≤ c9CPU.SP ∧ c9CPU.SP ≤ 0xE000 ∧ c9CPU.BC < 0x10000 ∧ c9CPU.DE < 0x10000 ∧
      c9CPU.HL < 0x10000 ∧ c9CPU.A < 0x100) ∧
    ∃ c2, ((pushHandler StackPair.BC c9CPU initStateD).bind
        fun r => (popHandler StackPair.BC r.1 r.2.1).map fun r2 => r2.1)
        = some c2 ∧ c2.SP = c9CPU.SP ∧ pairRestored StackPair.BC c9CPU c2 :=
  ⟨⟨by decide, by decide, by decide, by decide, by decide, by decide⟩,
    C9_push_pop_identity StackPair.BC c9CPU initStateD (by decide) (by decide)
      (by decide) (by decide) (by decide) (by decide)⟩

theorem bind_some_elim {α β : Type} (X : Option α) (k : α → Option β) (b : β)
    (h : X >>= k = some b) : ∃ a, X = some a ∧ k a = some b := by
  cases X with
  | none => exact absurd h (by simp)
  | some a => exact ⟨a, rfl, by simpa using h⟩

theorem GPU.update_ly_shape (g : GPU) (m : MMU) :
    ∃ u, g.update_ly m = some { m with ioregs := upd (upd m.ioregs 0x44 g.ly) 0x41 u } :=
  ⟨_, rfl⟩

theorem GPU.lcd_off_upd (m : MMU) (u v : Nat)
    (hen : GPU.LCD_DISPLAY_ENABLE m = some false) :
    GPU.LCD_DISPLAY_ENABLE { m with ioregs := upd (upd m.ioregs 0x44 v) 0x41 u } = some false := by
  unfold GPU.LCD_DISPLAY_ENABLE MMU.read_bit at hen ⊢
  rw [MMU.read_LCDC] at hen ⊢
  simp only [Option.map_some] at hen ⊢
  rw [upd_apply_ne _ _ _ (by decide), upd_apply_ne _ _ _ (by decide)]
  exact hen

theorem GPU.transfer_iter_off (g : GPU) (m : MMU)
    (hen : GPU.LCD_DISPLAY_ENABLE m = some false) :
    g.transfer_iter m = some { g with lx := (g.lx + 1) % 256 } := by
  unfold GPU.transfer_iter
  rw [hen]
  simp only [Option.bind_eq_bind, Option.some_bind, Bool.false_eq_true, if_false]

theorem GPU.oam_scanline_framebuff (g g2 : GPU) (m : MMU)
    (h : g.oam_scanline m = some g2) : g2.framebuff = g.framebuff := by
  unfold GPU.oam_scanline at h
  obtain ⟨hv, hmap, h⟩ := bind_some_elim _ _ _ h
  simp only [Option.some.injEq] at h
  subst h
  rfl

/-- C3 (amended): while LCDC bit 7 (LCD enable) is clear, a GPU step never
writes the framebuffer — `draw_dot` is gated on the enable bit.  (Timing is
not frozen: LY, the STAT mode bits and the interrupt requests still advance,
which is what the counterexample to the original claim exhibits.) -/
theorem C3_lcd_off_framebuff (g g' : GPU) (m m' : MMU)
    (hen : GPU.LCD_DISPLAY_ENABLE m = some false)
    (hstep : g.step m = some (g', m')) :
    g'.framebuff = g.framebuff := by
  unfold GPU.step at hstep
  obtain ⟨m1, hm1, hstep⟩ := bind_some_elim _ _ _ hstep
  have hen1 : GPU.LCD_DISPLAY_ENABLE m1 = some false := by
    obtain ⟨u, hu⟩ := GPU.update_ly_shape g m
    rw [hu, Option.some.injEq] at hm1
    rw [← hm1]
    exact GPU.lcd_off_upd m u g.ly hen
  clear hm1
  obtain ⟨mode, hmode, hstep⟩ := bind_some_elim _ _ _ hstep
  cases mode with
  | OAM_SEARCH =>
    dsimp only at hstep
    obtain ⟨g3, hsc, hstep⟩ := bind_some_elim _ _ _ hstep
    obtain ⟨m2, hmd, hstep⟩ := bind_some_elim _ _ _ hstep
    simp only [Option.some.injEq, Prod.mk.injEq] at hstep
    obtain ⟨h1, -⟩ := hstep
    subst h1
    have h2 := GPU.oam_scanline_framebuff _ _ _ hsc
    exact h2
  | LCD_TRANSFER =>
    dsimp only at hstep
    obtain ⟨g1, hX1, hstep⟩ := bind_some_elim _ _ _ hstep
    rw [GPU.transfer_iter_off _ _ hen1, Option.some.injEq] at hX1
    subst hX1
    obtain ⟨g2, hX2, hstep⟩ := bind_some_elim _ _ _ hstep
    rw [GPU.transfer_iter_off _ _ hen1, Option.some.injEq] at hX2
    subst hX2
    obtain ⟨g3, hX3, hstep⟩ := bind_some_elim _ _ _ hstep
    rw [GPU.transfer_iter_off _ _ hen1, Option.some.injEq] at hX3
    subst hX3
    obtain ⟨g4, hX4, hstep⟩ := bind_some_elim _ _ _ hstep
    rw [GPU.transfer_iter_off _ _ hen1, Option.some.injEq] at hX4
    subst hX4
    repeat' split at hstep
    all_goals
      first
      | (obtain ⟨ma, hma, hstep⟩ := bind_some_elim _ _ _ hstep
         obtain ⟨mb, hmb, hstep⟩ := bind_some_elim _ _ _ hstep
         obtain ⟨mc, hmc, hstep⟩ := bind_some_elim _ _ _ hstep
         simp only [Option.some.injEq, Prod.mk.injEq] at hstep
         obtain ⟨h1, -⟩ := hstep
         subst h1
         rfl)
      | (obtain ⟨ma, hma, hstep⟩ := bind_some_elim _ _ _ hstep
         obtain ⟨mb, hmb, hstep⟩ := bind_some_elim _ _ _ hstep
         simp only [Option.some.injEq, Prod.mk.injEq] at hstep
         obtain ⟨h1, -⟩ := hstep
         subst h1
         rfl)
      | (simp only [Option.some.injEq, Prod.mk.injEq] at hstep
         obtain ⟨h1, -⟩ := hstep
         subst h1
         rfl)
  | HBLANK =>
    dsimp only at hstep
    obtain ⟨m2, hul, hstep⟩ := bind_some_elim _ _ _ hstep
    obtain ⟨m3, hlyc, hstep⟩ := bind_some_elim _ _ _ hstep
    repeat' split at hstep
    all_goals
      first
      | (obtain ⟨ma, hma, hstep⟩ := bind_some_elim _ _ _ hstep
         obtain ⟨mb, hmb, hstep⟩ := bind_some_elim _ _ _ hstep
         obtain ⟨mc, hmc, hstep⟩ := bind_some_elim _ _ _ hstep
         simp only [Option.some.injEq, Prod.mk.injEq] at hstep
         obtain ⟨h1, -⟩ := hstep
         subst h1
         rfl)
      | (obtain ⟨ma, hma, hstep⟩ := bind_some_elim _ _ _ hstep
         obtain ⟨mb, hmb, hstep⟩ := bind_some_elim _ _ _ hstep
         simp only [Option.some.injEq, Prod.mk.injEq] at hstep
         obtain ⟨h1, -⟩ := hstep
         subst h1
         rfl)
      | (simp only [Option.some.injEq, Prod.mk.injEq] at hstep
         obtain ⟨h1, -⟩ := hstep
         subst h1
         rfl)
  | VBLANK =>
    dsimp only at hstep
    obtain ⟨m2, hul, hstep⟩ := bind_some_elim _ _ _ hstep
    obtain ⟨m3, hlyc, hstep⟩ := bind_some_elim _ _ _ hstep
    repeat' split at hstep
    all_goals
      first
      | (obtain ⟨ma, hma, hstep⟩ := bind_some_elim _ _ _ hstep
         obtain ⟨mb, hmb, hstep⟩ := bind_some_elim _ _ _ hstep
         obtain ⟨mc, hmc, hstep⟩ := bind_some_elim _ _ _ hstep
         simp only [Option.some.injEq, Prod.mk.injEq] at hstep
         obtain ⟨h1, -⟩ := hstep
         subst h1
         rfl)
      | (obtain ⟨ma, hma, hstep⟩ := bind_some_elim _ _ _ hstep
         obtain ⟨mb, hmb, hstep⟩ := bind_some_elim _ _ _ hstep
         simp only [Option.some.injEq, Prod.mk.injEq] at hstep
         obtain ⟨h1, -⟩ := hstep
         subst h1
         rfl)
      | (simp only [Option.some.injEq, Prod.mk.injEq] at hstep
         obtain ⟨h1, -⟩ := hstep
         subst h1
         rfl)

theorem C3_lcd_off_framebuff_witness :
    GPU.LCD_DISPLAY_ENABLE c3MMU = some false ∧
    c3GPU.step c3MMU = some (c3GPU2, c3MMU2) ∧
    c3GPU2.framebuff = c3GPU.framebuff :=
  ⟨by decide, by rfl,
    C3_lcd_off_framebuff c3GPU c3GPU2 c3MMU c3MMU2 (by decide) (by rfl)⟩
